import Mathlib

/-!
# tcpclosetest

A shallow embedding of `tcpclosetest.c` and the properties of its two modes.

The program talks to the outside world only through libc and system calls.
Their results are supplied by an environment `Env` (one field per call), the
process state that the C code can observe (`errno`, the global `ct_arg0`) is
threaded explicitly, and every call the program makes is appended to a trace
of `Event`s, in program order.  A function of the program is a `Proc α`: it
either returns a value or terminates the process (`exit`, `err`).

Characters of a `String` stand for the bytes of a C string.  The signal
handler `on_sigpipe` runs asynchronously; the trace is the one of the main
control flow only.
-/

namespace TcpCloseTest

/-! ## Data model -/

/-- An argument passed to a printf-style call after the format string. -/
inductive Arg where
  /-- An `int` printed with `%d`. -/
  | int (n : Int)
  /-- A C string printed with `%s`; `none` is the null pointer. -/
  | str (s : Option String)
  /-- The local buffer `buf` of `log_time`, as filled by `strftime`. -/
  | timebuf
  /-- The value of `strerror(e)`. -/
  | strerror (e : Int)
  deriving DecidableEq, Repr

/-- Address families that occur in the program. -/
inductive Family where
  /-- The value left by `bzero`. -/
  | AF_UNSPEC
  | AF_INET
  deriving DecidableEq, Repr

/-- The fields of `struct sockaddr_in` that the program sets.  `sin_port`
holds the 16-bit port number that `htons` stores in network byte order. -/
structure SockAddr where
  sin_family : Family
  s_addr : Nat
  sin_port : Nat
  deriving DecidableEq, Repr

/-- The calls the program makes, each with its arguments and, where the
program uses it, its return value. -/
inductive Event where
  /-- Output on stdout: `printf(fmt, args...)` or `fprintf(stdout, fmt, args...)`. -/
  | printf (fmt : String) (args : List Arg)
  /-- Call `warn(fmt)`: message and the description of `errno` on stderr. -/
  | warn (fmt : String) (errno : Int)
  /-- Call `warnx(fmt, args...)`: message on stderr. -/
  | warnx (fmt : String) (args : List Arg)
  /-- Call `err(status, fmt)`: as `warn`, then the process exits. -/
  | err (status : Int) (fmt : String) (errno : Int)
  /-- Call `getprotobyname(name)`; `found` is whether the result was non-null. -/
  | getprotobyname (name : String) (found : Bool)
  /-- Call `socket(PF_INET, SOCK_STREAM, proto)`. -/
  | socket (proto : Int) (ret : Int)
  | bind (fd : Int) (addr : SockAddr) (ret : Int)
  | listen (fd : Int) (backlog : Int) (ret : Int)
  | accept (fd : Int) (ret : Int)
  /-- Call `inet_pton(AF_INET, src, ...)`. -/
  | inet_pton (src : String) (ret : Int)
  /-- Call `sigaction(SIGPIPE, &sigact, NULL)` with handler `on_sigpipe`. -/
  | sigaction (ret : Int)
  | connect (fd : Int) (addr : SockAddr) (ret : Int)
  | write (fd : Int) (nbyte : Nat) (ret : Int)
  | close (fd : Int)
  | usleep (usec : Nat)
  deriving DecidableEq, Repr

/-- The results of the libc and system calls of one run.  Calls made at most
once per run have one field; calls made repeatedly are indexed by the number
of earlier calls.  The `...Errno` field is the value the call stores in
`errno` when it fails. -/
structure Env where
  /-- Return value of `strftime` in the `k`-th call of `log_time`. -/
  strftime : Nat → Nat
  /-- Value of `errno` after `time`, `gmtime_r` and `strftime` in the `k`-th
  call of `log_time`. -/
  logErrno : Nat → Int
  /-- Value of `errno` after the `fprintf` of the `k`-th call of `log_time`. -/
  fprintfErrno : Nat → Int
  /-- The `p_proto` of the entry `getprotobyname("tcp")` finds; `none` is `NULL`. -/
  getprotobyname : Option Int
  socket : Int
  socketErrno : Int
  bind : Int
  bindErrno : Int
  listen : Int
  listenErrno : Int
  accept : Int
  acceptErrno : Int
  /-- Return value of `inet_pton(AF_INET, src, ...)`. -/
  inet_pton : String → Int
  /-- The address `inet_pton(AF_INET, src, ...)` stores. -/
  inet_addr : String → Nat
  sigaction : Int
  sigactionErrno : Int
  connect : Int
  connectErrno : Int
  /-- Return value of the `i`-th `write`. -/
  write : Nat → Int
  writeErrno : Nat → Int

/-- The process state the program observes, and the trace of its calls. -/
structure State where
  /-- The global `ct_arg0`. -/
  ct_arg0 : Option String
  errno : Int
  /-- Number of calls of `log_time` so far. -/
  nlog : Nat
  trace : List Event
  deriving DecidableEq, Repr

/-- How a function of the program ends: it returns, or the process exits. -/
inductive Outcome (α : Type) where
  | ret (a : α) (s : State)
  | exit (status : Int) (s : State)
  deriving DecidableEq, Repr

/-- The state in which a function ended. -/
def Outcome.state {α : Type} : Outcome α → State
  | .ret _ s => s
  | .exit _ s => s

/-- The value a function returned, if it returned. -/
def Outcome.value? {α : Type} : Outcome α → Option α
  | .ret a _ => some a
  | .exit _ _ => none

/-- A function of the program. -/
def Proc (α : Type) : Type := State → Outcome α

/-- Sequencing: the rest of the function runs only if the first part returned. -/
def Proc.bind {α β : Type} (m : Proc α) (f : α → Proc β) : Proc β := fun s =>
  match m s with
  | .ret a s' => f a s'
  | .exit c s' => .exit c s'

instance : Monad Proc where
  pure a := fun s => .ret a s
  bind := Proc.bind

/-- Record a call in the trace. -/
def emit (e : Event) : Proc Unit := fun s =>
  .ret () { s with trace := s.trace ++ [e] }

/-- Read `errno`. -/
def getErrno : Proc Int := fun s => .ret s.errno s

/-- A call with return value `ret` that stores `errno` in `errno` when it
fails (returns a negative value). -/
def syscall (e : Event) (ret : Int) (errno : Int) : Proc Int := fun s =>
  .ret ret { s with errno := if ret < 0 then errno else s.errno,
                    trace := s.trace ++ [e] }

/-! ## Integer conversions and string functions of C -/

/-- Conversion of an integer to `int` (32 bits, two's complement). -/
def toInt32 (x : Int) : Int := (x + 2147483648) % 4294967296 - 2147483648

/-- Conversion of an integer to `size_t` (64 bits, unsigned). -/
def toSizeT (x : Int) : Int := x % 18446744073709551616

/-- The port number `htons(port)` stores: `port` converted to `uint16_t`. -/
def htons (port : Int) : Nat := (port % 65536).toNat

/-- The sign of `strcmp`: the strings are compared character by character,
the end of a string ordering before every character. -/
def strcmp : List Char → List Char → Int
  | [], [] => 0
  | [], _ :: _ => -1
  | _ :: _, [] => 1
  | a :: as, b :: bs =>
    if a = b then strcmp as bs else (a.toNat : Int) - (b.toNat : Int)

/-- The string `strlcpy(dst, src, size)` leaves in `dst`: the first
`size - 1` characters of `src`. -/
def strlcpy (src : String) (size : Nat) : String :=
  String.mk (src.data.take (size - 1))

/-- Size of the buffer for an IPv4 address in text form. -/
def INET_ADDRSTRLEN : Nat := 16

/-- The wildcard address. -/
def INADDR_ANY : Nat := 0

/-- The value of `sizeof (databuf)`. -/
def sizeof_databuf : Nat := 512

/-- The global `ct_port`. -/
def ct_port : Int := 20316

/-! ## The program -/

/-- The format string of the usage text. -/
def usageFmt : String := "usage: %s \"server\" | IP_ADDRESS\n"

/-- The function `usage`: print the usage text and exit with status 2. -/
def usage {α : Type} : Proc α := fun s =>
  .exit 2 { s with trace := s.trace ++ [.printf usageFmt [.str s.ct_arg0]] }

/-- The output of `log_time`: `fprintf(stdout, "%s: ", buf)`. -/
def stamp : Event := .printf "%s: " [.timebuf]

/-- The function `log_time`: print a timestamp, keeping `errno`. -/
def log_time (env : Env) : Proc Unit := fun s =>
  let errsave := s.errno
  let k := s.nlog
  -- time(&nowt); gmtime_r(&nowt, &nowtm); strftime(...)
  let s1 : State := { s with nlog := k + 1, errno := env.logErrno k }
  if env.strftime k = 0 then
    .exit 1 { s1 with trace := s1.trace ++
      [.err 1 "strftime failed unexpectedly" s1.errno] }
  else
    let s2 : State := { s1 with errno := env.fprintfErrno k,
                                trace := s1.trace ++ [stamp] }
    .ret () { s2 with errno := errsave }

/-- The function `make_tcp_socket`. -/
def make_tcp_socket (env : Env) : Proc Int := do
  match env.getprotobyname with
  | none =>
    emit (.getprotobyname "tcp" false)
    emit (.warnx "protocol not found: \"tcp\"" [])
    return -1
  | some p_proto =>
    emit (.getprotobyname "tcp" true)
    let sockfd ← syscall (.socket p_proto env.socket) env.socket env.socketErrno
    if sockfd < 0 then
      emit (.warn "socket" (← getErrno))
    return sockfd

/-- The function `do_server`. -/
def do_server (env : Env) (port : Int) : Proc Int := do
  log_time env
  emit (.printf "starting as server on port %d\n" [.int ct_port])
  let sockfd ← make_tcp_socket env
  if sockfd < 0 then
    return -1
  let addr : SockAddr :=
    { sin_family := .AF_INET, s_addr := INADDR_ANY, sin_port := htons port }
  if (← syscall (.bind sockfd addr env.bind) env.bind env.bindErrno) < 0 then
    emit (.warn "bind" (← getErrno))
    emit (.close sockfd)
    return -1
  if (← syscall (.listen sockfd 128 env.listen) env.listen env.listenErrno) < 0 then
    emit (.warn "listen" (← getErrno))
    emit (.close sockfd)
    return -1
  let clientfd ← syscall (.accept sockfd env.accept) env.accept env.acceptErrno
  if clientfd < 0 then
    emit (.warn "accept" (← getErrno))
    emit (.close sockfd)
    return -1
  log_time env
  emit (.printf "accepted connection\n" [])
  emit (.usleep 5000000)
  log_time env
  emit (.printf "closing client connection\n" [])
  emit (.close clientfd)
  emit (.usleep 5000000)
  log_time env
  emit (.printf "teardown\n" [])
  emit (.close sockfd)
  return 0

/-- The function `parse_ipv4`: the return value and the address stored in
`*addrp`. -/
def parse_ipv4 (env : Env) (ip : String) : Proc (Int × SockAddr) := do
  let buf := strlcpy ip INET_ADDRSTRLEN
  let zero : SockAddr := { sin_family := .AF_UNSPEC, s_addr := 0, sin_port := 0 }
  let r := env.inet_pton buf
  emit (.inet_pton buf r)
  if r ≠ 1 then
    return (-1, zero)
  return (0, { zero with s_addr := env.inet_addr buf, sin_family := .AF_INET })

/-- The loop `for (i = 0; i < 20; i++)` of `do_client`, from its test of the
condition: `n` is the number of iterations left before `i` reaches 20. -/
def write_loop (env : Env) (sockfd : Int) : Nat → Nat → Proc Unit
  | 0, _ => pure ()
  | n + 1, i => do
    log_time env
    emit (.printf "write (%d)\n" [.int i])
    let r ← syscall (.write sockfd sizeof_databuf (env.write i)) (env.write i)
      (env.writeErrno i)
    let nwritten := toInt32 r
    if toSizeT nwritten ≠ sizeof_databuf then
      log_time env
      if nwritten < 0 then
        emit (.printf "write returned %d (error %d: %s)\n"
          [.int nwritten, .int (← getErrno), .strerror (← getErrno)])
      else
        emit (.printf "write returned %d\n" [.int nwritten])
    else
      emit (.usleep 500000)
      write_loop env sockfd n (i + 1)

/-- The function `do_client`. -/
def do_client (env : Env) (port : Int) (ipaddrz : String) : Proc Int := do
  let (r, addr0) ← parse_ipv4 env ipaddrz
  if r ≠ 0 then
    emit (.warnx "failed to parse IP address: %s\n" [.str (some ipaddrz)])
    return -1
  let addr : SockAddr := { addr0 with sin_port := htons port }
  if (← syscall (.sigaction env.sigaction) env.sigaction env.sigactionErrno) ≠ 0 then
    emit (.warn "sigaction" (← getErrno))
    return -1
  log_time env
  emit (.printf "connecting to %s port %d\n" [.str (some ipaddrz), .int port])
  let sockfd ← make_tcp_socket env
  if sockfd < 0 then
    return -1
  if (← syscall (.connect sockfd addr env.connect) env.connect env.connectErrno) ≠ 0 then
    emit (.warn "connect" (← getErrno))
    emit (.close sockfd)
    return -1
  log_time env
  emit (.printf "connected\n" [])
  write_loop env sockfd 20 0
  log_time env
  emit (.printf "teardown\n" [])
  emit (.close sockfd)
  return 0

/-- Assign the global `ct_arg0`. -/
def setArg0 (arg0 : Option String) : Proc Unit := fun s =>
  .ret () { s with ct_arg0 := arg0 }

/-- The function `main`; `argc` is the length of `argv`, and `argv[argc]`
is the null pointer. -/
def main (env : Env) (argv : List String) : Proc Int := do
  setArg0 argv[0]?
  if argv.length ≠ 2 then
    usage
  -- reached only when argc == 2
  let arg1 := argv.getD 1 ""
  if strcmp arg1.data "server".data = 0 then
    do_server env ct_port
  else
    do_client env ct_port arg1

/-! ## Observations on a run -/

/-- The calls `m` makes when started in state `s`: the part of the final
trace after the trace of `s`. -/
def events {α : Type} (m : Proc α) (s : State) : List Event :=
  (m s).state.trace.drop s.trace.length

/-- The clock assumption: every timestamp fits the buffer of `log_time`, so
`strftime` never returns 0 (true of every date up to the year 9999). -/
def ClockOk (env : Env) : Prop := ∀ k, env.strftime k ≠ 0

/-- The first line of the server. -/
def serverStart : Event := .printf "starting as server on port %d\n" [.int ct_port]

/-- The address the server binds: the wildcard address and `port`. -/
def serverAddr (port : Int) : SockAddr :=
  { sin_family := .AF_INET, s_addr := INADDR_ANY, sin_port := htons port }

/-- The calls of the server after a successful `listen`, when `accept`
returns `clientfd`. -/
def serverSession (sockfd clientfd : Int) : List Event :=
  [.accept sockfd clientfd,
   stamp, .printf "accepted connection\n" [],
   .usleep 5000000,
   stamp, .printf "closing client connection\n" [],
   .close clientfd,
   .usleep 5000000,
   stamp, .printf "teardown\n" [],
   .close sockfd]

/-! ## The calls of the write loop -/

/-- The loop continues after the `i`-th write: the test
`nwritten != sizeof (databuf)` of the code is false. -/
def FullWrite (env : Env) (i : Nat) : Prop :=
  toSizeT (toInt32 (env.write i)) = sizeof_databuf

instance (env : Env) (i : Nat) : Decidable (FullWrite env i) := by
  unfold FullWrite; infer_instance

/-- The line that announces the `i`-th write. -/
def writeIndex (i : Nat) : Event := .printf "write (%d)\n" [.int i]

/-- The line that reports a write that stopped the loop: an error with the
value of `errno`, or a short write. -/
def failureLine (nwritten errno : Int) : Event :=
  if nwritten < 0 then
    .printf "write returned %d (error %d: %s)\n" [.int nwritten, .int errno, .strerror errno]
  else
    .printf "write returned %d\n" [.int nwritten]

/-- The calls of an iteration whose write is full. -/
def okIter (env : Env) (fd : Int) (i : Nat) : List Event :=
  [stamp, writeIndex i, .write fd sizeof_databuf (env.write i), .usleep 500000]

/-- The calls of `n` iterations with full writes, from index `i`. -/
def okIters (env : Env) (fd : Int) : Nat → Nat → List Event
  | 0, _ => []
  | n + 1, i => okIter env fd i ++ okIters env fd n (i + 1)

/-- The calls of the iteration that stops the loop, `errno` being the value
of `errno` after its write. -/
def failIter (env : Env) (fd : Int) (i : Nat) (errno : Int) : List Event :=
  [stamp, writeIndex i, .write fd sizeof_databuf (env.write i),
   stamp, failureLine (toInt32 (env.write i)) errno]

/-- The value of `errno` after the `i`-th write, `e` being its value before. -/
def errnoAfterWrite (env : Env) (i : Nat) (e : Int) : Int :=
  if env.write i < 0 then env.writeErrno i else e

/-! ## The calls of the client -/

/-- The text `parse_ipv4` hands to `inet_pton`: the copy of the argument in
its buffer of `INET_ADDRSTRLEN` bytes. -/
def parsedText (ip : String) : String := strlcpy ip INET_ADDRSTRLEN

/-- The address the client connects to. -/
def clientAddr (env : Env) (port : Int) (ip : String) : SockAddr :=
  { sin_family := .AF_INET, s_addr := env.inet_addr (parsedText ip), sin_port := htons port }

/-- The line the client prints before it creates its socket. -/
def connecting (port : Int) (ip : String) : Event :=
  .printf "connecting to %s port %d\n" [.str (some ip), .int port]

/-- The calls of the client up to its `socket` call, when address parsing,
`sigaction` and the protocol lookup succeed. -/
def clientSetup (env : Env) (port : Int) (ip : String) (proto : Int) : List Event :=
  [.inet_pton (parsedText ip) (env.inet_pton (parsedText ip)),
   .sigaction env.sigaction,
   stamp, connecting port ip,
   .getprotobyname "tcp" true,
   .socket proto env.socket]

/-- The calls of the client from `connect` to the start of the loop, when
`connect` succeeds. -/
def clientConnect (env : Env) (port : Int) (ip : String) : List Event :=
  [.connect env.socket (clientAddr env port ip) env.connect,
   stamp, .printf "connected\n" []]

/-- The calls of the client after the loop. -/
def clientTeardown (fd : Int) : List Event :=
  [stamp, .printf "teardown\n" [], .close fd]

/-- Every setup step of the client succeeds: the address parses, the signal
handler is installed, the protocol is found, and `socket` and `connect`
succeed. -/
def ClientSetupOk (env : Env) (ip : String) (proto : Int) : Prop :=
  env.inet_pton (parsedText ip) = 1 ∧ env.sigaction = 0 ∧
    env.getprotobyname = some proto ∧ 0 ≤ env.socket ∧ env.connect = 0

/-! ## Address literals -/

/-- A decimal number of one to three digits with value at most 255. -/
def isOctet (cs : List Char) : Bool :=
  decide (1 ≤ cs.length) && decide (cs.length ≤ 3) && cs.all Char.isDigit &&
    decide (cs.foldl (fun n c => 10 * n + (c.toNat - 48)) 0 ≤ 255)

/-- The fields of a text between its dots. -/
def splitDots : List Char → List (List Char)
  | [] => [[]]
  | c :: cs =>
    if c = '.' then [] :: splitDots cs
    else
      match splitDots cs with
      | [] => [[c]]
      | f :: fs => (c :: f) :: fs

/-- The spec's notion of a well-formed dotted-quad IPv4 literal: four decimal
numbers between 0 and 255, of one to three digits each, separated by dots,
and nothing else. -/
def isDottedQuad (ip : String) : Bool :=
  decide ((splitDots ip.data).length = 4) && (splitDots ip.data).all isOctet

/-! ## The usage text -/

/-- Whether a call prints the usage text. -/
def isUsage : Event → Bool
  | .printf fmt _ => fmt == usageFmt
  | _ => false

/-- A function prints no usage text: from every state it extends the trace
by calls none of which prints the usage text. -/
def Quiet {α : Type} (m : Proc α) : Prop :=
  ∀ s, ∃ t, (m s).state.trace = s.trace ++ t ∧ ∀ e ∈ t, isUsage e = false

/-! ## Observations on the client -/

/-- Whether a call is a `write` on a descriptor. -/
def isWrite : Event → Bool
  | .write _ _ _ => true
  | _ => false

/-- The write calls of a trace, in order. -/
def writesOf (t : List Event) : List Event := t.filter isWrite

/-- The first `n` write attempts on `fd`: 512 bytes each, in order, each
with its return value. -/
def writeAttempts (env : Env) (fd : Int) (n : Nat) : List Event :=
  (List.range n).map fun i => .write fd 512 (env.write i)

/-- Whether a call prints a line that reports a failed or short write. -/
def isFailureLine : Event → Bool
  | .printf fmt _ =>
    fmt == "write returned %d (error %d: %s)\n" || fmt == "write returned %d\n"
  | _ => false

/-- Every return value of `write` fits the type `int` of `nwritten`. -/
def WritesFitInt (env : Env) : Prop :=
  ∀ i, -2147483648 ≤ env.write i ∧ env.write i ≤ 2147483647

/-! ## Observations on descriptors -/

/-- Whether a call is an `accept`. -/
def isAccept : Event → Bool
  | .accept _ _ => true
  | _ => false

/-- The descriptors a trace obtains, in order: the non-negative results of
`socket` and `accept`. -/
def obtainedFds (t : List Event) : List Int :=
  t.filterMap fun e =>
    match e with
    | .socket _ ret => if 0 ≤ ret then some ret else none
    | .accept _ ret => if 0 ≤ ret then some ret else none
    | _ => none

/-- The descriptors a trace closes, in order. -/
def closedFds (t : List Event) : List Int :=
  t.filterMap fun e =>
    match e with
    | .close fd => some fd
    | _ => none

/-- The effect of a call on the table of open descriptors; `none` when the
call obtains a descriptor that is open or closes one that is not. -/
def fdStep (tbl : List Int) : Event → Option (List Int)
  | .socket _ ret =>
    if ret < 0 then some tbl else if ret ∈ tbl then none else some (ret :: tbl)
  | .accept _ ret =>
    if ret < 0 then some tbl else if ret ∈ tbl then none else some (ret :: tbl)
  | .close fd => if fd ∈ tbl then some (tbl.erase fd) else none
  | _ => some tbl

/-- The table of open descriptors after a trace, from the table `tbl`. -/
def fdRun : List Int → List Event → Option (List Int)
  | tbl, [] => some tbl
  | tbl, e :: t =>
    match fdStep tbl e with
    | some tbl' => fdRun tbl' t
    | none => none

/-- Descriptor hygiene of a trace: run from the empty table, every `close`
closes an open descriptor and no descriptor is left open; the descriptors
closed are those obtained, each once. -/
def Hygienic (t : List Event) : Prop :=
  fdRun [] t = some [] ∧ (obtainedFds t).Nodup ∧
    ∀ fd, (closedFds t).count fd = (obtainedFds t).count fd

/-! ## Sample runs -/

/-- A run in which every call succeeds and every write is full; `inet_pton`
accepts exactly the well-formed dotted-quad literals. -/
def envOk : Env :=
  { strftime := fun _ => 20, logErrno := fun _ => 25, fprintfErrno := fun _ => 9,
    getprotobyname := some 6, socket := 3, socketErrno := 24,
    bind := 0, bindErrno := 98, listen := 0, listenErrno := 98,
    accept := 4, acceptErrno := 4,
    inet_pton := fun t => if isDottedQuad t then 1 else 0,
    inet_addr := fun _ => 2130706433,
    sigaction := 0, sigactionErrno := 22, connect := 0, connectErrno := 111,
    write := fun _ => 512, writeErrno := fun _ => 32 }

/-- The state in which `main` starts. -/
def st0 : State := { ct_arg0 := none, errno := 0, nlog := 0, trace := [] }

/-- A run in which the peer has closed when the client makes its 11th
write: the write fails with `errno` 32. -/
def envReset : Env :=
  { envOk with write := fun i => if i < 10 then 512 else -1 }

/-- A run in which the peer has closed when the client makes its 20th
write. -/
def envLate : Env :=
  { envOk with write := fun i => if i = 19 then -1 else 512 }

/-- A run in which the 4th write is short. -/
def envShort : Env :=
  { envOk with write := fun i => if i < 3 then 512 else 100 }

/-- A run of the server in which `bind` fails. -/
def envBindFail : Env := { envOk with bind := -1 }

/-- A run of the client in which `connect` fails. -/
def envConnectFail : Env := { envOk with connect := -1 }

/-! ## Basic lemmas -/

theorem bind_apply {α β : Type} (m : Proc α) (f : α → Proc β) (s : State) :
    (m >>= f) s = match m s with
      | .ret a s' => f a s'
      | .exit c s' => .exit c s' := rfl

theorem log_time_ok (env : Env) (s : State) (h : env.strftime s.nlog ≠ 0) :
    log_time env s =
      .ret () { ct_arg0 := s.ct_arg0, errno := s.errno, nlog := s.nlog + 1,
                trace := s.trace ++ [stamp] } := by
  simp [log_time, h]

theorem events_of_trace {α : Type} (m : Proc α) (s : State) (t : List Event)
    (h : (m s).state.trace = s.trace ++ t) : events m s = t := by
  simp [events, h]

/-! ## The runs of the server -/

theorem do_server_proto_fail (env : Env) (port : Int) (s : State) (hclk : ClockOk env)
    (hp : env.getprotobyname = none) :
    do_server env port s =
      .ret (-1) { ct_arg0 := s.ct_arg0, errno := s.errno, nlog := s.nlog + 1,
                  trace := s.trace ++ [stamp, serverStart, .getprotobyname "tcp" false,
                    .warnx "protocol not found: \"tcp\"" []] } := by
  simp [do_server, make_tcp_socket, bind_apply, log_time_ok, hclk _, hp, emit, pure,
    serverStart]

theorem do_server_socket_fail (env : Env) (port : Int) (s : State) (hclk : ClockOk env)
    (p : Int) (hp : env.getprotobyname = some p) (hs : env.socket < 0) :
    do_server env port s =
      .ret (-1) { ct_arg0 := s.ct_arg0, errno := env.socketErrno, nlog := s.nlog + 1,
                  trace := s.trace ++ [stamp, serverStart, .getprotobyname "tcp" true,
                    .socket p env.socket, .warn "socket" env.socketErrno] } := by
  simp [do_server, make_tcp_socket, bind_apply, log_time_ok, hclk _, hp, hs, emit, syscall,
    getErrno, pure, serverStart]

theorem do_server_bind_fail (env : Env) (port : Int) (s : State) (hclk : ClockOk env)
    (p : Int) (hp : env.getprotobyname = some p) (hs : 0 ≤ env.socket) (hb : env.bind < 0) :
    do_server env port s =
      .ret (-1) { ct_arg0 := s.ct_arg0, errno := env.bindErrno, nlog := s.nlog + 1,
                  trace := s.trace ++ [stamp, serverStart, .getprotobyname "tcp" true,
                    .socket p env.socket, .bind env.socket (serverAddr port) env.bind,
                    .warn "bind" env.bindErrno, .close env.socket] } := by
  simp [do_server, make_tcp_socket, bind_apply, log_time_ok, hclk _, hp, not_lt.mpr hs, hb,
    emit, syscall, getErrno, pure, serverStart, serverAddr]

theorem do_server_listen_fail (env : Env) (port : Int) (s : State) (hclk : ClockOk env)
    (p : Int) (hp : env.getprotobyname = some p) (hs : 0 ≤ env.socket) (hb : 0 ≤ env.bind)
    (hl : env.listen < 0) :
    do_server env port s =
      .ret (-1) { ct_arg0 := s.ct_arg0, errno := env.listenErrno, nlog := s.nlog + 1,
                  trace := s.trace ++ [stamp, serverStart, .getprotobyname "tcp" true,
                    .socket p env.socket, .bind env.socket (serverAddr port) env.bind,
                    .listen env.socket 128 env.listen,
                    .warn "listen" env.listenErrno, .close env.socket] } := by
  simp [do_server, make_tcp_socket, bind_apply, log_time_ok, hclk _, hp, not_lt.mpr hs,
    not_lt.mpr hb, hl, emit, syscall, getErrno, pure, serverStart, serverAddr]

theorem do_server_accept_fail (env : Env) (port : Int) (s : State) (hclk : ClockOk env)
    (p : Int) (hp : env.getprotobyname = some p) (hs : 0 ≤ env.socket) (hb : 0 ≤ env.bind)
    (hl : 0 ≤ env.listen) (ha : env.accept < 0) :
    do_server env port s =
      .ret (-1) { ct_arg0 := s.ct_arg0, errno := env.acceptErrno, nlog := s.nlog + 1,
                  trace := s.trace ++ [stamp, serverStart, .getprotobyname "tcp" true,
                    .socket p env.socket, .bind env.socket (serverAddr port) env.bind,
                    .listen env.socket 128 env.listen, .accept env.socket env.accept,
                    .warn "accept" env.acceptErrno, .close env.socket] } := by
  simp [do_server, make_tcp_socket, bind_apply, log_time_ok, hclk _, hp, not_lt.mpr hs,
    not_lt.mpr hb, not_lt.mpr hl, ha, emit, syscall, getErrno, pure, serverStart, serverAddr]

theorem do_server_ok (env : Env) (port : Int) (s : State) (hclk : ClockOk env)
    (p : Int) (hp : env.getprotobyname = some p) (hs : 0 ≤ env.socket) (hb : 0 ≤ env.bind)
    (hl : 0 ≤ env.listen) (ha : 0 ≤ env.accept) :
    do_server env port s =
      .ret 0 { ct_arg0 := s.ct_arg0, errno := s.errno, nlog := s.nlog + 4,
               trace := s.trace ++ ([stamp, serverStart, .getprotobyname "tcp" true,
                 .socket p env.socket, .bind env.socket (serverAddr port) env.bind,
                 .listen env.socket 128 env.listen] ++ serverSession env.socket env.accept) } := by
  simp [do_server, make_tcp_socket, bind_apply, log_time_ok, hclk _, hp, not_lt.mpr hs,
    not_lt.mpr hb, not_lt.mpr hl, not_lt.mpr ha, emit, syscall, getErrno, pure, serverStart,
    serverAddr, serverSession]

/-! ## The runs of the write loop -/

theorem write_loop_succ_full (env : Env) (fd : Int) (n i : Nat) (s : State)
    (hclk : ClockOk env) (h : FullWrite env i) :
    write_loop env fd (n + 1) i s =
      write_loop env fd n (i + 1)
        { ct_arg0 := s.ct_arg0, errno := errnoAfterWrite env i s.errno, nlog := s.nlog + 1,
          trace := s.trace ++ okIter env fd i } := by
  unfold FullWrite at h
  simp [write_loop, bind_apply, log_time_ok, hclk _, emit, syscall, h, okIter, writeIndex,
    errnoAfterWrite]

theorem write_loop_succ_short (env : Env) (fd : Int) (n i : Nat) (s : State)
    (hclk : ClockOk env) (h : ¬ FullWrite env i) :
    write_loop env fd (n + 1) i s =
      .ret () { ct_arg0 := s.ct_arg0, errno := errnoAfterWrite env i s.errno,
                nlog := s.nlog + 2,
                trace := s.trace ++ failIter env fd i (errnoAfterWrite env i s.errno) } := by
  unfold FullWrite at h
  by_cases hneg : toInt32 (env.write i) < 0 <;>
    simp [write_loop, bind_apply, log_time_ok, hclk _, emit, syscall, getErrno, h, hneg, failIter,
      failureLine, writeIndex, errnoAfterWrite, pure]

/-- All of the `n` remaining writes are full: the loop runs `n` iterations. -/
theorem write_loop_all_ok (env : Env) (fd : Int) (hclk : ClockOk env) :
    ∀ (n i : Nat) (s : State), (∀ j, j < n → FullWrite env (i + j)) →
      ∃ e, write_loop env fd n i s =
        .ret () { ct_arg0 := s.ct_arg0, errno := e, nlog := s.nlog + n,
                  trace := s.trace ++ okIters env fd n i } := by
  intro n
  induction n with
  | zero => intro i s _; exact ⟨s.errno, by simp [write_loop, pure, okIters]⟩
  | succ n ih =>
    intro i s h
    have h0 : FullWrite env i := by simpa using h 0 (Nat.succ_pos n)
    have hrest : ∀ j, j < n → FullWrite env (i + 1 + j) := by
      intro j hj
      have := h (j + 1) (Nat.succ_lt_succ hj)
      rwa [show i + (j + 1) = i + 1 + j by omega] at this
    obtain ⟨e, he⟩ := ih (i + 1) _ hrest
    refine ⟨e, ?_⟩
    rw [write_loop_succ_full env fd n i s hclk h0, he]
    simp [okIters, Nat.add_assoc, Nat.add_comm 1 n]

/-- The write `k` places ahead is the first that is not full: the loop runs
`k` full iterations and stops in the next. -/
theorem write_loop_stop (env : Env) (fd : Int) (hclk : ClockOk env) :
    ∀ (k n i : Nat) (s : State), k < n → (∀ j, j < k → FullWrite env (i + j)) →
      ¬ FullWrite env (i + k) →
      ∃ e0, write_loop env fd n i s =
        .ret () { ct_arg0 := s.ct_arg0, errno := errnoAfterWrite env (i + k) e0,
                  nlog := s.nlog + k + 2,
                  trace := s.trace ++ (okIters env fd k i ++
                    failIter env fd (i + k) (errnoAfterWrite env (i + k) e0)) } := by
  intro k
  induction k with
  | zero =>
    intro n i s hn _ hbad
    obtain ⟨m, rfl⟩ : ∃ m, n = m + 1 := ⟨n - 1, by omega⟩
    refine ⟨s.errno, ?_⟩
    rw [write_loop_succ_short env fd m i s hclk (by simpa using hbad)]
    simp [okIters]
  | succ k ih =>
    intro n i s hn h hbad
    obtain ⟨m, rfl⟩ : ∃ m, n = m + 1 := ⟨n - 1, by omega⟩
    have h0 : FullWrite env i := by simpa using h 0 (Nat.succ_pos k)
    have hrest : ∀ j, j < k → FullWrite env (i + 1 + j) := by
      intro j hj
      have := h (j + 1) (Nat.succ_lt_succ hj)
      rwa [show i + (j + 1) = i + 1 + j by omega] at this
    have hbad1 : ¬ FullWrite env (i + 1 + k) := by
      rwa [show i + (k + 1) = i + 1 + k by omega] at hbad
    obtain ⟨e0, he⟩ := ih m (i + 1) _ (by omega) hrest hbad1
    refine ⟨e0, ?_⟩
    rw [write_loop_succ_full env fd m i s hclk h0, he]
    simp [okIters, show i + 1 + k = i + (k + 1) by omega, Nat.add_assoc, Nat.add_comm 1 k]

/-- Either the first `n` indices all satisfy `P`, or there is a first one
that does not. -/
theorem first_failure (P : Nat → Prop) (n : Nat) :
    (∀ j, j < n → P j) ∨ ∃ k, k < n ∧ (∀ j, j < k → P j) ∧ ¬ P k := by
  induction n with
  | zero => left; intro j hj; omega
  | succ n ih =>
    rcases ih with h | ⟨k, hk, hlt, hbad⟩
    · by_cases hn : P n
      · left
        intro j hj
        rcases Nat.lt_succ_iff_lt_or_eq.mp hj with hj | rfl
        · exact h j hj
        · exact hn
      · exact Or.inr ⟨n, Nat.lt_succ_self n, h, hn⟩
    · exact Or.inr ⟨k, Nat.lt_succ_of_lt hk, hlt, hbad⟩

/-- For a value of type `int`, the test of the loop is a comparison with 512. -/
theorem fullWrite_iff (env : Env) (i : Nat)
    (h : -2147483648 ≤ env.write i ∧ env.write i ≤ 2147483647) :
    FullWrite env i ↔ env.write i = 512 := by
  unfold FullWrite toSizeT toInt32 sizeof_databuf
  constructor
  · intro h1; push_cast at h1; omega
  · intro h1; rw [h1]; decide

/-- A value of type `int` is stored in `nwritten` unchanged. -/
theorem toInt32_of_range (r : Int) (h : -2147483648 ≤ r ∧ r ≤ 2147483647) :
    toInt32 r = r := by
  unfold toInt32; omega

/-! ## The runs of the client -/

theorem do_client_parse_fail (env : Env) (port : Int) (ip : String) (s : State)
    (hp : env.inet_pton (parsedText ip) ≠ 1) :
    do_client env port ip s =
      .ret (-1) { ct_arg0 := s.ct_arg0, errno := s.errno, nlog := s.nlog,
                  trace := s.trace ++ [.inet_pton (parsedText ip) (env.inet_pton (parsedText ip)),
                    .warnx "failed to parse IP address: %s\n" [.str (some ip)]] } := by
  unfold parsedText at hp
  simp [do_client, parse_ipv4, bind_apply, emit, pure, hp, parsedText]

theorem do_client_sigaction_fail (env : Env) (port : Int) (ip : String) (s : State)
    (hp : env.inet_pton (parsedText ip) = 1) (hsig : env.sigaction ≠ 0) :
    do_client env port ip s =
      .ret (-1) { ct_arg0 := s.ct_arg0,
                  errno := if env.sigaction < 0 then env.sigactionErrno else s.errno,
                  nlog := s.nlog,
                  trace := s.trace ++ [.inet_pton (parsedText ip) (env.inet_pton (parsedText ip)),
                    .sigaction env.sigaction,
                    .warn "sigaction" (if env.sigaction < 0 then env.sigactionErrno else s.errno)] } := by
  unfold parsedText at hp
  simp [do_client, parse_ipv4, bind_apply, emit, syscall, getErrno, pure, hp, hsig, parsedText]

theorem do_client_proto_fail (env : Env) (port : Int) (ip : String) (s : State)
    (hclk : ClockOk env)
    (hp : env.inet_pton (parsedText ip) = 1) (hsig : env.sigaction = 0)
    (hproto : env.getprotobyname = none) :
    do_client env port ip s =
      .ret (-1) { ct_arg0 := s.ct_arg0, errno := s.errno, nlog := s.nlog + 1,
                  trace := s.trace ++ [.inet_pton (parsedText ip) (env.inet_pton (parsedText ip)),
                    .sigaction env.sigaction, stamp, connecting port ip,
                    .getprotobyname "tcp" false,
                    .warnx "protocol not found: \"tcp\"" []] } := by
  unfold parsedText at hp
  simp [do_client, parse_ipv4, make_tcp_socket, bind_apply, log_time_ok, hclk _, emit, syscall,
    pure, hp, hsig, hproto, parsedText, connecting]

theorem do_client_socket_fail (env : Env) (port : Int) (ip : String) (s : State)
    (hclk : ClockOk env) (proto : Int)
    (hp : env.inet_pton (parsedText ip) = 1) (hsig : env.sigaction = 0)
    (hproto : env.getprotobyname = some proto) (hs : env.socket < 0) :
    do_client env port ip s =
      .ret (-1) { ct_arg0 := s.ct_arg0, errno := env.socketErrno, nlog := s.nlog + 1,
                  trace := s.trace ++ (clientSetup env port ip proto ++
                    [.warn "socket" env.socketErrno]) } := by
  unfold parsedText at hp
  simp [do_client, parse_ipv4, make_tcp_socket, bind_apply, log_time_ok, hclk _, emit, syscall,
    getErrno, pure, hp, hsig, hproto, hs, parsedText, connecting, clientSetup]

theorem do_client_connect_fail (env : Env) (port : Int) (ip : String) (s : State)
    (hclk : ClockOk env) (proto : Int)
    (hp : env.inet_pton (parsedText ip) = 1) (hsig : env.sigaction = 0)
    (hproto : env.getprotobyname = some proto) (hs : 0 ≤ env.socket)
    (hc : env.connect ≠ 0) :
    do_client env port ip s =
      .ret (-1) { ct_arg0 := s.ct_arg0,
                  errno := if env.connect < 0 then env.connectErrno else s.errno,
                  nlog := s.nlog + 1,
                  trace := s.trace ++ (clientSetup env port ip proto ++
                    [.connect env.socket (clientAddr env port ip) env.connect,
                     .warn "connect" (if env.connect < 0 then env.connectErrno else s.errno),
                     .close env.socket]) } := by
  unfold parsedText at hp
  simp [do_client, parse_ipv4, make_tcp_socket, bind_apply, log_time_ok, hclk _, emit, syscall,
    getErrno, pure, hp, hsig, hproto, not_lt.mpr hs, hc, parsedText, connecting, clientSetup,
    clientAddr]

/-- After a successful setup the client runs the loop and then tears down. -/
theorem do_client_connected (env : Env) (port : Int) (ip : String) (s : State)
    (hclk : ClockOk env) (proto : Int) (hok : ClientSetupOk env ip proto) :
    do_client env port ip s =
      match write_loop env env.socket 20 0
          { ct_arg0 := s.ct_arg0, errno := s.errno, nlog := s.nlog + 2,
            trace := s.trace ++ (clientSetup env port ip proto ++ clientConnect env port ip) } with
      | .ret _ s' =>
        .ret 0 { ct_arg0 := s'.ct_arg0, errno := s'.errno, nlog := s'.nlog + 1,
                 trace := s'.trace ++ clientTeardown env.socket }
      | .exit c s' => .exit c s' := by
  obtain ⟨hp, hsig, hproto, hs, hc⟩ := hok
  unfold parsedText at hp
  simp [do_client, parse_ipv4, make_tcp_socket, bind_apply, log_time_ok, hclk _, emit, syscall,
    getErrno, pure, hp, hsig, hproto, not_lt.mpr hs, hc, parsedText, connecting, clientSetup,
    clientAddr, clientConnect, clientTeardown]
  split <;> simp_all

/-- The run of the client when all 20 writes are full. -/
theorem do_client_all_ok (env : Env) (port : Int) (ip : String) (s : State)
    (hclk : ClockOk env) (proto : Int) (hok : ClientSetupOk env ip proto)
    (hw : ∀ j, j < 20 → FullWrite env j) :
    ∃ e, do_client env port ip s =
      .ret 0 { ct_arg0 := s.ct_arg0, errno := e, nlog := s.nlog + 23,
               trace := s.trace ++ (clientSetup env port ip proto ++ clientConnect env port ip ++
                 okIters env env.socket 20 0 ++ clientTeardown env.socket) } := by
  obtain ⟨e, he⟩ := write_loop_all_ok env env.socket hclk 20 0
    { ct_arg0 := s.ct_arg0, errno := s.errno, nlog := s.nlog + 2,
      trace := s.trace ++ (clientSetup env port ip proto ++ clientConnect env port ip) }
    (by simpa using hw)
  refine ⟨e, ?_⟩
  rw [do_client_connected env port ip s hclk proto hok, he]
  simp [List.append_assoc]

/-- The run of the client when write `k` is the first that is not full. -/
theorem do_client_stop (env : Env) (port : Int) (ip : String) (s : State)
    (hclk : ClockOk env) (proto : Int) (hok : ClientSetupOk env ip proto)
    (k : Nat) (hk : k < 20) (hw : ∀ j, j < k → FullWrite env j) (hbad : ¬ FullWrite env k) :
    ∃ e0, do_client env port ip s =
      .ret 0 { ct_arg0 := s.ct_arg0, errno := errnoAfterWrite env k e0, nlog := s.nlog + k + 5,
               trace := s.trace ++ (clientSetup env port ip proto ++ clientConnect env port ip ++
                 okIters env env.socket k 0 ++
                 failIter env env.socket k (errnoAfterWrite env k e0) ++
                 clientTeardown env.socket) } := by
  obtain ⟨e0, he⟩ := write_loop_stop env env.socket hclk k 20 0
    { ct_arg0 := s.ct_arg0, errno := s.errno, nlog := s.nlog + 2,
      trace := s.trace ++ (clientSetup env port ip proto ++ clientConnect env port ip) }
    hk (by simpa using hw) (by simpa using hbad)
  refine ⟨e0, ?_⟩
  rw [do_client_connected env port ip s hclk proto hok, he]
  simp [List.append_assoc]
  omega

/-! ## The dispatcher -/

theorem strcmp_eq_zero_iff : ∀ a b : List Char, strcmp a b = 0 ↔ a = b := by
  intro a
  induction a with
  | nil => intro b; cases b <;> simp [strcmp]
  | cons x xs ih =>
    intro b
    cases b with
    | nil => simp [strcmp]
    | cons y ys =>
      by_cases hxy : x = y
      · simp [strcmp, hxy, ih]
      · have hne : (x.toNat : Int) - (y.toNat : Int) ≠ 0 := by
          intro h
          apply hxy
          have h1 : x.toNat = y.toNat := by omega
          exact Char.ext (UInt32.toNat.inj h1)
        simp [strcmp, hxy, hne]

/-- With one user argument `main` runs the mode the argument selects. -/
theorem main_two (env : Env) (prog arg : String) (s : State) :
    main env [prog, arg] s =
      if arg = "server" then
        do_server env ct_port
          { ct_arg0 := some prog, errno := s.errno, nlog := s.nlog, trace := s.trace }
      else
        do_client env ct_port arg
          { ct_arg0 := some prog, errno := s.errno, nlog := s.nlog, trace := s.trace } := by
  have hcmp : strcmp arg.data "server".data = 0 ↔ arg = "server" := by
    rw [strcmp_eq_zero_iff]
    exact ⟨fun h => String.ext h, fun h => by rw [h]⟩
  by_cases h : arg = "server"
  · have h0 := hcmp.mpr h
    rw [if_pos h]
    simp [main, setArg0, bind_apply, pure, h0]
  · have h0 : ¬ strcmp arg.data "server".data = 0 := fun hc => h (hcmp.mp hc)
    rw [if_neg h]
    simp [main, setArg0, bind_apply, pure, h0]

theorem quiet_pure {α : Type} (a : α) : Quiet (pure a : Proc α) := by
  intro s; exact ⟨[], by simp [pure, Outcome.state], by simp⟩

theorem quiet_bind {α β : Type} (m : Proc α) (f : α → Proc β) (hm : Quiet m)
    (hf : ∀ a, Quiet (f a)) : Quiet (m >>= f) := by
  intro s
  obtain ⟨t, ht, hP⟩ := hm s
  rw [bind_apply]
  cases hms : m s with
  | ret a s' =>
    rw [hms] at ht
    obtain ⟨t', ht', hP'⟩ := hf a s'
    refine ⟨t ++ t', ?_, ?_⟩
    · simp only [Outcome.state] at ht
      simp [ht', ht]
    · intro e he
      rcases List.mem_append.mp he with h | h
      · exact hP e h
      · exact hP' e h
  | exit c s' =>
    rw [hms] at ht
    exact ⟨t, by simpa [Outcome.state] using ht, hP⟩

theorem quiet_emit (e : Event) (h : isUsage e = false) : Quiet (emit e) := by
  intro s; exact ⟨[e], by simp [emit, Outcome.state], by simpa using h⟩

theorem quiet_syscall (e : Event) (r x : Int) (h : isUsage e = false) :
    Quiet (syscall e r x) := by
  intro s; exact ⟨[e], by simp [syscall, Outcome.state], by simpa using h⟩

theorem quiet_getErrno : Quiet getErrno := by
  intro s; exact ⟨[], by simp [getErrno, Outcome.state], by simp⟩

theorem quiet_log_time (env : Env) : Quiet (log_time env) := by
  intro s
  by_cases h : env.strftime s.nlog = 0
  · exact ⟨[.err 1 "strftime failed unexpectedly" (env.logErrno s.nlog)],
      by simp [log_time, h, Outcome.state], by simp [isUsage]⟩
  · exact ⟨[stamp], by simp [log_time, h, Outcome.state], by simp; rfl⟩

theorem quiet_write_loop (env : Env) (fd : Int) : ∀ n i, Quiet (write_loop env fd n i) := by
  intro n
  induction n with
  | zero => intro i; exact quiet_pure ()
  | succ n ih =>
    intro i
    unfold write_loop
    repeat' first
      | exact quiet_pure _
      | exact quiet_getErrno
      | exact quiet_log_time env
      | exact ih _
      | exact quiet_emit _ rfl
      | exact quiet_syscall _ _ _ rfl
      | refine quiet_bind _ _ ?_ (fun _ => ?_)
      | split
      | dsimp only

theorem quiet_make_tcp_socket (env : Env) : Quiet (make_tcp_socket env) := by
  unfold make_tcp_socket
  repeat' first
    | exact quiet_pure _
    | exact quiet_getErrno
    | exact quiet_emit _ rfl
    | exact quiet_syscall _ _ _ rfl
    | refine quiet_bind _ _ ?_ (fun _ => ?_)
    | split

theorem quiet_do_server (env : Env) (port : Int) : Quiet (do_server env port) := by
  unfold do_server
  repeat' first
    | exact quiet_pure _
    | exact quiet_getErrno
    | exact quiet_log_time env
    | exact quiet_make_tcp_socket env
    | exact quiet_emit _ rfl
    | exact quiet_syscall _ _ _ rfl
    | refine quiet_bind _ _ ?_ (fun _ => ?_)
    | split

theorem quiet_parse_ipv4 (env : Env) (ip : String) : Quiet (parse_ipv4 env ip) := by
  unfold parse_ipv4
  repeat' first
    | exact quiet_pure _
    | exact quiet_emit _ rfl
    | refine quiet_bind _ _ ?_ (fun _ => ?_)
    | split

theorem quiet_do_client (env : Env) (port : Int) (ip : String) :
    Quiet (do_client env port ip) := by
  unfold do_client
  repeat' first
    | exact quiet_pure _
    | exact quiet_getErrno
    | exact quiet_log_time env
    | exact quiet_make_tcp_socket env
    | exact quiet_parse_ipv4 env ip
    | exact quiet_write_loop env _ _ _
    | exact quiet_emit _ rfl
    | exact quiet_syscall _ _ _ rfl
    | refine quiet_bind _ _ ?_ (fun _ => ?_)
    | split

theorem events_of_quiet {α : Type} (m : Proc α) (h : Quiet m) (s : State) :
    ∀ e ∈ events m s, isUsage e = false := by
  obtain ⟨t, ht, hP⟩ := h s
  rw [events_of_trace m s t ht]
  exact hP

/-- C1: with a wrong argument count (`argc != 2`) `main` prints the usage
text and exits with status 2, making no other call, whatever the other
arguments are; with exactly one user argument (`argc == 2`) no call of the
run prints the usage text. -/
theorem C1_usage_contract (env : Env) (argv : List String) (s : State) :
    (argv.length ≠ 2 →
      main env argv s =
        .exit 2 { ct_arg0 := argv[0]?, errno := s.errno, nlog := s.nlog,
                  trace := s.trace ++ [.printf usageFmt [.str argv[0]?]] }) ∧
    (argv.length = 2 → ∀ e ∈ events (main env argv) s, isUsage e = false) := by
  constructor
  · intro h
    simp [main, setArg0, bind_apply, usage, h]
  · intro h
    obtain ⟨prog, arg, rfl⟩ : ∃ prog arg, argv = [prog, arg] := by
      match argv, h with
      | [a, b], _ => exact ⟨a, b, rfl⟩
    intro e he
    unfold events at he
    rw [main_two] at he
    by_cases harg : arg = "server"
    · rw [if_pos harg] at he
      exact events_of_quiet _ (quiet_do_server env ct_port)
        { ct_arg0 := some prog, errno := s.errno, nlog := s.nlog, trace := s.trace } e he
    · rw [if_neg harg] at he
      exact events_of_quiet _ (quiet_do_client env ct_port arg)
        { ct_arg0 := some prog, errno := s.errno, nlog := s.nlog, trace := s.trace } e he

/-- Witness of C1: no argument, three arguments, and one argument. -/
theorem C1_usage_contract_witness :
    main envOk ["tcpclosetest"] st0 =
        .exit 2 { ct_arg0 := some "tcpclosetest", errno := 0, nlog := 0,
                  trace := [.printf usageFmt [.str (some "tcpclosetest")]] } ∧
    main envOk ["tcpclosetest", "server", "127.0.0.1"] st0 =
        .exit 2 { ct_arg0 := some "tcpclosetest", errno := 0, nlog := 0,
                  trace := [.printf usageFmt [.str (some "tcpclosetest")]] } ∧
    (∀ e ∈ events (main envOk ["tcpclosetest", "server"]) st0, isUsage e = false) :=
  ⟨(C1_usage_contract envOk ["tcpclosetest"] st0).1 (by decide),
   (C1_usage_contract envOk ["tcpclosetest", "server", "127.0.0.1"] st0).1 (by decide),
   (C1_usage_contract envOk ["tcpclosetest", "server"] st0).2 (by decide)⟩

/-- C2: with one user argument `arg`, `main` runs `do_server` on port 20316
when `arg` is the string "server" and `do_client` on port 20316 with address
`arg` for every other `arg`, and ends as the mode function ends, with its
result code. -/
theorem C2_mode_selection (env : Env) (prog arg : String) (s : State) :
    (arg = "server" →
      main env [prog, arg] s =
        do_server env 20316
          { ct_arg0 := some prog, errno := s.errno, nlog := s.nlog, trace := s.trace }) ∧
    (arg ≠ "server" →
      main env [prog, arg] s =
        do_client env 20316 arg
          { ct_arg0 := some prog, errno := s.errno, nlog := s.nlog, trace := s.trace }) := by
  constructor
  · intro h; rw [main_two, if_pos h]; rfl
  · intro h; rw [main_two, if_neg h]; rfl

/-- Witness of C2: the argument "server", and an argument that is no address. -/
theorem C2_mode_selection_witness :
    main envOk ["tcpclosetest", "server"] st0 =
        do_server envOk 20316
          { ct_arg0 := some "tcpclosetest", errno := 0, nlog := 0, trace := [] } ∧
    main envOk ["tcpclosetest", "not-an-ip"] st0 =
        do_client envOk 20316 "not-an-ip"
          { ct_arg0 := some "tcpclosetest", errno := 0, nlog := 0, trace := [] } :=
  ⟨(C2_mode_selection envOk "tcpclosetest" "server" st0).1 rfl,
   (C2_mode_selection envOk "tcpclosetest" "not-an-ip" st0).2 (by decide)⟩

/-! ## The client after a successful setup -/

theorem value_events_of_eq {α : Type} (m : Proc α) (s : State) (a : α) (s' : State)
    (t : List Event) (h : m s = .ret a s') (ht : s'.trace = s.trace ++ t) :
    (m s).value? = some a ∧ events m s = t := by
  refine ⟨by rw [h]; rfl, events_of_trace m s t ?_⟩
  rw [h]; exact ht

theorem client_run_all_ok (env : Env) (port : Int) (ip : String) (s : State)
    (hclk : ClockOk env) (proto : Int) (hok : ClientSetupOk env ip proto)
    (hw : ∀ j, j < 20 → FullWrite env j) :
    (do_client env port ip s).value? = some 0 ∧
    events (do_client env port ip) s =
      clientSetup env port ip proto ++ clientConnect env port ip ++
        okIters env env.socket 20 0 ++ clientTeardown env.socket := by
  obtain ⟨e, he⟩ := do_client_all_ok env port ip s hclk proto hok hw
  exact value_events_of_eq _ s 0 _ _ he rfl

theorem client_run_stop (env : Env) (port : Int) (ip : String) (s : State)
    (hclk : ClockOk env) (proto : Int) (hok : ClientSetupOk env ip proto)
    (k : Nat) (hk : k < 20) (hw : ∀ j, j < k → FullWrite env j) (hbad : ¬ FullWrite env k) :
    (do_client env port ip s).value? = some 0 ∧
    ∃ e0, events (do_client env port ip) s =
      clientSetup env port ip proto ++ clientConnect env port ip ++
        okIters env env.socket k 0 ++
        failIter env env.socket k (errnoAfterWrite env k e0) ++
        clientTeardown env.socket := by
  obtain ⟨e0, he⟩ := do_client_stop env port ip s hclk proto hok k hk hw hbad
  exact ⟨(value_events_of_eq _ s 0 _ _ he rfl).1, e0, (value_events_of_eq _ s 0 _ _ he rfl).2⟩

theorem writesOf_append (a b : List Event) : writesOf (a ++ b) = writesOf a ++ writesOf b := by
  simp [writesOf]

theorem writesOf_okIters (env : Env) (fd : Int) :
    ∀ n i, writesOf (okIters env fd n i) =
      (List.range n).map fun j => Event.write fd 512 (env.write (i + j)) := by
  intro n
  induction n with
  | zero => intro i; simp [okIters, writesOf]
  | succ n ih =>
    intro i
    rw [okIters, writesOf_append, ih (i + 1), List.range_succ_eq_map]
    simp [okIter, writesOf, isWrite, stamp, writeIndex, sizeof_databuf, Function.comp_def,
      Nat.add_assoc, Nat.add_comm 1]

theorem writesOf_setup (env : Env) (port : Int) (ip : String) (proto : Int) :
    writesOf (clientSetup env port ip proto ++ clientConnect env port ip) = [] := by
  simp [writesOf, clientSetup, clientConnect, isWrite, stamp, connecting]

theorem writesOf_teardown (fd : Int) : writesOf (clientTeardown fd) = [] := by
  simp [writesOf, clientTeardown, isWrite, stamp]

theorem writesOf_failIter (env : Env) (fd : Int) (k : Nat) (e : Int) :
    writesOf (failIter env fd k e) = [.write fd 512 (env.write k)] := by
  unfold failIter failureLine
  split <;> simp [writesOf, isWrite, stamp, writeIndex, sizeof_databuf]

/-- The writes of the client when all 20 are full. -/
theorem client_writes_all_ok (env : Env) (port : Int) (ip : String) (s : State)
    (hclk : ClockOk env) (proto : Int) (hok : ClientSetupOk env ip proto)
    (hw : ∀ j, j < 20 → FullWrite env j) :
    writesOf (events (do_client env port ip) s) = writeAttempts env env.socket 20 := by
  rw [(client_run_all_ok env port ip s hclk proto hok hw).2]
  rw [writesOf_append, writesOf_append, writesOf_setup, writesOf_teardown, writesOf_okIters]
  simp [writeAttempts]

/-- The writes of the client when write `k` is the first that is not full. -/
theorem client_writes_stop (env : Env) (port : Int) (ip : String) (s : State)
    (hclk : ClockOk env) (proto : Int) (hok : ClientSetupOk env ip proto)
    (k : Nat) (hk : k < 20) (hw : ∀ j, j < k → FullWrite env j) (hbad : ¬ FullWrite env k) :
    writesOf (events (do_client env port ip) s) = writeAttempts env env.socket (k + 1) := by
  obtain ⟨e0, he⟩ := (client_run_stop env port ip s hclk proto hok k hk hw hbad).2
  rw [he, writesOf_append, writesOf_append, writesOf_append, writesOf_setup, writesOf_teardown,
    writesOf_okIters, writesOf_failIter]
  simp [writeAttempts, List.range_succ]

theorem clockOk_envOk : ClockOk envOk := fun _ => by simp [envOk]

theorem setupOk_envOk : ClientSetupOk envOk "127.0.0.1" 6 := by
  refine ⟨?_, rfl, rfl, by decide, rfl⟩
  decide

/-- C3: once the client is connected its writes are write attempts of 512
bytes on its socket, in order: all 20 of them, followed by the teardown,
when the first 20 return values are 512, and otherwise the attempts up to and
including the first whose return value is not 512, `k + 1` writes for the
zero-based index `k` of that attempt. -/
theorem C3_write_loop_policy (env : Env) (port : Int) (ip : String) (s : State) (proto : Int)
    (hclk : ClockOk env) (hok : ClientSetupOk env ip proto) (hfit : WritesFitInt env) :
    ((∀ i, i < 20 → env.write i = 512) →
      writesOf (events (do_client env port ip) s) = writeAttempts env env.socket 20 ∧
      ∃ t, events (do_client env port ip) s = t ++ clientTeardown env.socket ∧
        writesOf t = writeAttempts env env.socket 20) ∧
    (∀ k, k < 20 → (∀ i, i < k → env.write i = 512) → env.write k ≠ 512 →
      writesOf (events (do_client env port ip) s) = writeAttempts env env.socket (k + 1)) := by
  constructor
  · intro hall
    have hw : ∀ j, j < 20 → FullWrite env j := fun j hj =>
      (fullWrite_iff env j (hfit j)).mpr (hall j hj)
    have hwr := client_writes_all_ok env port ip s hclk proto hok hw
    refine ⟨hwr, _, (client_run_all_ok env port ip s hclk proto hok hw).2, ?_⟩
    rw [(client_run_all_ok env port ip s hclk proto hok hw).2, writesOf_append,
      writesOf_teardown, List.append_nil] at hwr
    exact hwr
  · intro k hk hbefore hbad
    exact client_writes_stop env port ip s hclk proto hok k hk
      (fun j hj => (fullWrite_iff env j (hfit j)).mpr (hbefore j hj))
      (fun h => hbad ((fullWrite_iff env k (hfit k)).mp h))

theorem writesFit_envOk : WritesFitInt envOk := fun _ => by simp [envOk]

theorem clockOk_envReset : ClockOk envReset := fun _ => by simp [envReset, envOk]

theorem setupOk_envReset : ClientSetupOk envReset "127.0.0.1" 6 := by
  refine ⟨?_, rfl, rfl, by decide, rfl⟩
  decide

theorem writesFit_envReset : WritesFitInt envReset := fun i => by
  by_cases h : i < 10 <;> simp [envReset, h]

theorem clockOk_envLate : ClockOk envLate := fun _ => by simp [envLate, envOk]

theorem setupOk_envLate : ClientSetupOk envLate "127.0.0.1" 6 := by
  refine ⟨?_, rfl, rfl, by decide, rfl⟩
  decide

theorem writesFit_envLate : WritesFitInt envLate := fun i => by
  by_cases h : i = 19 <;> simp [envLate, h]

theorem clockOk_envShort : ClockOk envShort := fun _ => by simp [envShort, envOk]

theorem setupOk_envShort : ClientSetupOk envShort "127.0.0.1" 6 := by
  refine ⟨?_, rfl, rfl, by decide, rfl⟩
  decide

theorem writesFit_envShort : WritesFitInt envShort := fun i => by
  by_cases h : i < 3 <;> simp [envShort, h]

/-- Witness of C3: a run with 20 full writes, and a run whose 11th write
(index 10) fails. -/
theorem C3_write_loop_policy_witness :
    writesOf (events (do_client envOk 20316 "127.0.0.1") st0) = writeAttempts envOk 3 20 ∧
    writesOf (events (do_client envReset 20316 "127.0.0.1") st0) =
      writeAttempts envReset 3 11 :=
  ⟨((C3_write_loop_policy envOk 20316 "127.0.0.1" st0 6 clockOk_envOk setupOk_envOk
      writesFit_envOk).1 (fun _ _ => rfl)).1,
   (C3_write_loop_policy envReset 20316 "127.0.0.1" st0 6 clockOk_envReset setupOk_envReset
      writesFit_envReset).2 10 (by decide) (fun i hi => by simp [envReset, hi]) (by decide)⟩

/-- Counterexample to C4 as stated: when the peer has closed at the 20th
write, that write returns -1, a value other than 512, and the client has
performed 20 writes, not fewer. -/
theorem C4_counterexample :
    (∃ i, i < 20 ∧ envLate.write i ≠ 512) ∧
    ¬ (writesOf (events (do_client envLate 20316 "127.0.0.1") st0)).length < 20 := by
  refine ⟨⟨19, by decide, by decide⟩, ?_⟩
  have h := client_writes_stop envLate 20316 "127.0.0.1" st0 clockOk_envLate 6 setupOk_envLate
    19 (by decide)
    (fun j hj => (fullWrite_iff envLate j (writesFit_envLate j)).mpr
      (by simp [envLate, Nat.ne_of_lt hj]))
    (fun h => absurd ((fullWrite_iff envLate 19 (writesFit_envLate 19)).mp h) (by decide))
  rw [h]
  simp [writeAttempts]

/-- C4, amended: when some write attempt of the loop returns a value other
than 512, the client stops at the first such write, of index `k`: it performs
exactly the `k + 1` writes up to that one, at most 20, and strictly fewer
than 20 unless that write is the 20th (`k = 19`). -/
theorem C4_early_close_bound (env : Env) (port : Int) (ip : String) (s : State) (proto : Int)
    (hclk : ClockOk env) (hok : ClientSetupOk env ip proto) (hfit : WritesFitInt env)
    (hclose : ∃ i, i < 20 ∧ env.write i ≠ 512) :
    ∃ k, k < 20 ∧ (∀ i, i < k → env.write i = 512) ∧ env.write k ≠ 512 ∧
      writesOf (events (do_client env port ip) s) = writeAttempts env env.socket (k + 1) ∧
      (writesOf (events (do_client env port ip) s)).length = k + 1 ∧
      (writesOf (events (do_client env port ip) s)).length ≤ 20 ∧
      ((writesOf (events (do_client env port ip) s)).length < 20 ↔ k < 19) := by
  rcases first_failure (fun i => env.write i = 512) 20 with hall | ⟨k, hk, hbefore, hbad⟩
  · obtain ⟨i, hi, hne⟩ := hclose
    exact absurd (hall i hi) hne
  · have h := client_writes_stop env port ip s hclk proto hok k hk
      (fun j hj => (fullWrite_iff env j (hfit j)).mpr (hbefore j hj))
      (fun h => hbad ((fullWrite_iff env k (hfit k)).mp h))
    refine ⟨k, hk, hbefore, hbad, h, ?_, ?_, ?_⟩ <;> rw [h] <;> simp [writeAttempts] <;> omega

/-- Witness of C4, amended: the peer has closed at the 11th write. -/
theorem C4_early_close_bound_witness :
    (∃ i, i < 20 ∧ envReset.write i ≠ 512) ∧
    ∃ k, k < 20 ∧ (∀ i, i < k → envReset.write i = 512) ∧ envReset.write k ≠ 512 ∧
      writesOf (events (do_client envReset 20316 "127.0.0.1") st0) =
        writeAttempts envReset envReset.socket (k + 1) ∧
      (writesOf (events (do_client envReset 20316 "127.0.0.1") st0)).length = k + 1 ∧
      (writesOf (events (do_client envReset 20316 "127.0.0.1") st0)).length ≤ 20 ∧
      ((writesOf (events (do_client envReset 20316 "127.0.0.1") st0)).length < 20 ↔ k < 19) :=
  ⟨⟨10, by decide, by decide⟩,
   C4_early_close_bound envReset 20316 "127.0.0.1" st0 6 clockOk_envReset setupOk_envReset
     writesFit_envReset ⟨10, by decide, by decide⟩⟩

/-- C5: when address parsing, the installation of the signal handler, the
creation of the socket and `connect` succeed, then for every sequence of
write return values `do_client` returns 0, and its last calls are the
"teardown" line and the `close` of its socket. -/
theorem C5_write_errors_not_fatal (env : Env) (port : Int) (ip : String) (s : State)
    (proto : Int) (hclk : ClockOk env) (hok : ClientSetupOk env ip proto) :
    (do_client env port ip s).value? = some 0 ∧
    ∃ t, events (do_client env port ip) s =
      clientSetup env port ip proto ++ clientConnect env port ip ++ t ++
        [stamp, .printf "teardown\n" [], .close env.socket] := by
  rcases first_failure (FullWrite env) 20 with hall | ⟨k, hk, hbefore, hbad⟩
  · obtain ⟨hv, he⟩ := client_run_all_ok env port ip s hclk proto hok hall
    exact ⟨hv, _, he⟩
  · obtain ⟨hv, e0, he⟩ := client_run_stop env port ip s hclk proto hok k hk hbefore hbad
    refine ⟨hv, okIters env env.socket k 0 ++
      failIter env env.socket k (errnoAfterWrite env k e0), ?_⟩
    rw [he]
    simp [clientTeardown, List.append_assoc]

/-- Witness of C5: the 11th write fails. -/
theorem C5_write_errors_not_fatal_witness :
    ClientSetupOk envReset "127.0.0.1" 6 ∧
    (do_client envReset 20316 "127.0.0.1" st0).value? = some 0 ∧
    ∃ t, events (do_client envReset 20316 "127.0.0.1") st0 =
      clientSetup envReset 20316 "127.0.0.1" 6 ++ clientConnect envReset 20316 "127.0.0.1" ++
        t ++ [stamp, .printf "teardown\n" [], .close envReset.socket] :=
  ⟨setupOk_envReset,
   C5_write_errors_not_fatal envReset 20316 "127.0.0.1" st0 6 clockOk_envReset
     setupOk_envReset⟩

theorem failureLines_okIters (env : Env) (fd : Int) :
    ∀ n i, (okIters env fd n i).filter isFailureLine = [] := by
  intro n
  induction n with
  | zero => intro i; simp [okIters]
  | succ n ih =>
    intro i
    rw [okIters, List.filter_append, ih (i + 1)]
    simp only [okIter, stamp, writeIndex, List.append_nil]
    rfl

theorem failureLines_setup (env : Env) (port : Int) (ip : String) (proto : Int) :
    (clientSetup env port ip proto ++ clientConnect env port ip).filter isFailureLine = [] := by
  simp only [clientSetup, clientConnect, stamp, connecting]
  rfl

theorem failureLines_teardown (fd : Int) :
    (clientTeardown fd).filter isFailureLine = [] := by
  simp only [clientTeardown, stamp]
  rfl

theorem failureLines_failIter (env : Env) (fd : Int) (k : Nat) (e : Int) :
    ((failIter env fd k e).filter isFailureLine).length = 1 := by
  unfold failIter failureLine
  split <;> simp only [stamp, writeIndex] <;> rfl

/-- C10: when the loop stops on write `k`, whose return value `r` is not
512, the client logs exactly one failure line, right after the "write (k)"
line and the write, and before "teardown": for `r < 0` the line reports `r`
and the value that write stored in `errno`, and for `0 <= r < 512` it reports
`r` only; when all 20 writes return 512 no failure line is logged.  The line
shows the `errno` of the write because `log_time` returns with `errno` as it
was on entry, whatever its calls stored there. -/
theorem C10_failure_report (env : Env) (port : Int) (ip : String) (s : State) (proto : Int)
    (hclk : ClockOk env) (hok : ClientSetupOk env ip proto) (hfit : WritesFitInt env) :
    (∀ k, k < 20 → (∀ i, i < k → env.write i = 512) → env.write k ≠ 512 →
      events (do_client env port ip) s =
        clientSetup env port ip proto ++ clientConnect env port ip ++
          okIters env env.socket k 0 ++
          [stamp, .printf "write (%d)\n" [.int k], .write env.socket 512 (env.write k),
           stamp,
           if env.write k < 0 then
             .printf "write returned %d (error %d: %s)\n"
               [.int (env.write k), .int (env.writeErrno k), .strerror (env.writeErrno k)]
           else
             .printf "write returned %d\n" [.int (env.write k)]] ++
          [stamp, .printf "teardown\n" [], .close env.socket] ∧
      ((events (do_client env port ip) s).filter isFailureLine).length = 1) ∧
    ((∀ i, i < 20 → env.write i = 512) →
      (events (do_client env port ip) s).filter isFailureLine = []) ∧
    (∀ st, ∃ st', log_time env st = .ret () st' ∧ st'.errno = st.errno) := by
  refine ⟨?_, ?_, ?_⟩
  · intro k hk hbefore hbad
    obtain ⟨e0, he⟩ := (client_run_stop env port ip s hclk proto hok k hk
      (fun j hj => (fullWrite_iff env j (hfit j)).mpr (hbefore j hj))
      (fun h => hbad ((fullWrite_iff env k (hfit k)).mp h))).2
    constructor
    · rw [he]
      congr 1
      congr 1
      unfold failIter failureLine errnoAfterWrite
      rw [toInt32_of_range _ (hfit k)]
      by_cases hneg : env.write k < 0 <;> simp [hneg, writeIndex, sizeof_databuf]
    · rw [he, List.filter_append, List.filter_append, List.filter_append,
        failureLines_setup, failureLines_okIters, failureLines_teardown]
      simpa using failureLines_failIter env env.socket k (errnoAfterWrite env k e0)
  · intro hall
    have hw : ∀ j, j < 20 → FullWrite env j := fun j hj =>
      (fullWrite_iff env j (hfit j)).mpr (hall j hj)
    rw [(client_run_all_ok env port ip s hclk proto hok hw).2]
    rw [List.filter_append, List.filter_append, failureLines_okIters, failureLines_setup,
      failureLines_teardown]
    rfl
  · intro st
    exact ⟨_, log_time_ok env st (hclk _), rfl⟩

/-- Witness of C10: the 11th write fails with `errno` 32, `log_time` having
left 25 and then 9 in `errno` before it restores it; and a short write. -/
theorem C10_failure_report_witness :
    events (do_client envReset 20316 "127.0.0.1") st0 =
        clientSetup envReset 20316 "127.0.0.1" 6 ++ clientConnect envReset 20316 "127.0.0.1" ++
          okIters envReset 3 10 0 ++
          [stamp, .printf "write (%d)\n" [.int 10], .write 3 512 (-1),
           stamp, .printf "write returned %d (error %d: %s)\n" [.int (-1), .int 32, .strerror 32],
           stamp, .printf "teardown\n" [], .close 3] ∧
    ((events (do_client envShort 20316 "127.0.0.1") st0).filter isFailureLine).length = 1 ∧
    (events (do_client envOk 20316 "127.0.0.1") st0).filter isFailureLine = [] := by
  refine ⟨?_, ?_, ?_⟩
  · have h := ((C10_failure_report envReset 20316 "127.0.0.1" st0 6 clockOk_envReset
      setupOk_envReset writesFit_envReset).1 10 (by decide)
      (fun i hi => by simp [envReset, hi]) (by decide)).1
    rw [h]
    simp [envReset, envOk]
  · exact ((C10_failure_report envShort 20316 "127.0.0.1" st0 6 clockOk_envShort
      setupOk_envShort writesFit_envShort).1 3 (by decide)
      (fun i hi => by simp [envShort, hi]) (by decide)).2
  · exact (C10_failure_report envOk 20316 "127.0.0.1" st0 6 clockOk_envOk setupOk_envOk
      writesFit_envOk).2.1 (fun _ _ => rfl)

/-! ## The server -/

/-- C9: when the socket is created and `bind` (wildcard address, port
20316), `listen` (backlog 128) and `accept` succeed, the calls of the server
after `listen` are exactly: one `accept`, "accepted connection", a sleep of 5
seconds, "closing client connection", the `close` of the accepted
connection, a sleep of 5 seconds, "teardown", the `close` of the listening
socket; it returns 0.  So it makes one `accept`, no `write`, and closes the
accepted connection and then the listening socket, once each. -/
theorem C9_server_single_shot (env : Env) (s : State) (proto : Int) (hclk : ClockOk env)
    (hproto : env.getprotobyname = some proto) (hs : 0 ≤ env.socket) (hb : env.bind = 0)
    (hl : env.listen = 0) (ha : 0 ≤ env.accept) :
    (do_server env 20316 s).value? = some 0 ∧
    events (do_server env 20316) s =
      [stamp, .printf "starting as server on port %d\n" [.int 20316],
       .getprotobyname "tcp" true,
       .socket proto env.socket,
       .bind env.socket { sin_family := .AF_INET, s_addr := 0, sin_port := 20316 } 0,
       .listen env.socket 128 0,
       .accept env.socket env.accept,
       stamp, .printf "accepted connection\n" [],
       .usleep 5000000,
       stamp, .printf "closing client connection\n" [],
       .close env.accept,
       .usleep 5000000,
       stamp, .printf "teardown\n" [],
       .close env.socket] ∧
    ((events (do_server env 20316) s).filter isAccept).length = 1 ∧
    writesOf (events (do_server env 20316) s) = [] ∧
    closedFds (events (do_server env 20316) s) = [env.accept, env.socket] := by
  have h := value_events_of_eq _ s 0 _ _
    (do_server_ok env 20316 s hclk proto hproto hs (by omega) (by omega) ha) rfl
  have hev : events (do_server env 20316) s =
      [stamp, .printf "starting as server on port %d\n" [.int 20316],
       .getprotobyname "tcp" true,
       .socket proto env.socket,
       .bind env.socket { sin_family := .AF_INET, s_addr := 0, sin_port := 20316 } 0,
       .listen env.socket 128 0,
       .accept env.socket env.accept,
       stamp, .printf "accepted connection\n" [],
       .usleep 5000000,
       stamp, .printf "closing client connection\n" [],
       .close env.accept,
       .usleep 5000000,
       stamp, .printf "teardown\n" [],
       .close env.socket] := by
    rw [h.2]
    simp [serverStart, serverAddr, serverSession, hb, hl, ct_port, INADDR_ANY, htons]
  refine ⟨h.1, hev, ?_, ?_, ?_⟩
  · rw [hev]; simp [isAccept, stamp]
  · rw [hev]; simp [writesOf, isWrite, stamp]
  · rw [hev]; simp [closedFds, stamp]

/-- Witness of C9: the socket is descriptor 3, the connection descriptor 4. -/
theorem C9_server_single_shot_witness :
    (do_server envOk 20316 st0).value? = some 0 ∧
    ((events (do_server envOk 20316) st0).filter isAccept).length = 1 ∧
    writesOf (events (do_server envOk 20316) st0) = [] ∧
    closedFds (events (do_server envOk 20316) st0) = [4, 3] :=
  have h := C9_server_single_shot envOk st0 6 clockOk_envOk rfl (by decide) rfl rfl (by decide)
  ⟨h.1, h.2.2.1, h.2.2.2.1, h.2.2.2.2⟩

/-! ## Setup failures -/

/-- C6: a failed setup step ends the mode function with -1 and no later
step is made.  In `do_server`: the protocol lookup, `socket`, `bind`,
`listen`, `accept`; in `do_client`: address parsing, `sigaction`, the protocol
lookup, `socket`, `connect`.  In each case the calls of the run are the ones
up to the failed step, its report, and the `close` of the socket if one was
created.  When every setup step succeeds the mode function returns 0. -/
theorem C6_setup_failure_fatal (env : Env) (port : Int) (ip : String) (s : State)
    (hclk : ClockOk env) :
    (env.getprotobyname = none →
      (do_server env port s).value? = some (-1) ∧
      events (do_server env port) s =
        [stamp, serverStart, .getprotobyname "tcp" false,
         .warnx "protocol not found: \"tcp\"" []]) ∧
    (∀ proto, env.getprotobyname = some proto →
      (env.socket < 0 →
        (do_server env port s).value? = some (-1) ∧
        events (do_server env port) s =
          [stamp, serverStart, .getprotobyname "tcp" true, .socket proto env.socket,
           .warn "socket" env.socketErrno]) ∧
      (0 ≤ env.socket → env.bind < 0 →
        (do_server env port s).value? = some (-1) ∧
        events (do_server env port) s =
          [stamp, serverStart, .getprotobyname "tcp" true, .socket proto env.socket,
           .bind env.socket (serverAddr port) env.bind,
           .warn "bind" env.bindErrno, .close env.socket]) ∧
      (0 ≤ env.socket → 0 ≤ env.bind → env.listen < 0 →
        (do_server env port s).value? = some (-1) ∧
        events (do_server env port) s =
          [stamp, serverStart, .getprotobyname "tcp" true, .socket proto env.socket,
           .bind env.socket (serverAddr port) env.bind,
           .listen env.socket 128 env.listen,
           .warn "listen" env.listenErrno, .close env.socket]) ∧
      (0 ≤ env.socket → 0 ≤ env.bind → 0 ≤ env.listen → env.accept < 0 →
        (do_server env port s).value? = some (-1) ∧
        events (do_server env port) s =
          [stamp, serverStart, .getprotobyname "tcp" true, .socket proto env.socket,
           .bind env.socket (serverAddr port) env.bind,
           .listen env.socket 128 env.listen,
           .accept env.socket env.accept,
           .warn "accept" env.acceptErrno, .close env.socket]) ∧
      (0 ≤ env.socket → 0 ≤ env.bind → 0 ≤ env.listen → 0 ≤ env.accept →
        (do_server env port s).value? = some 0)) ∧
    (env.inet_pton (parsedText ip) ≠ 1 →
      (do_client env port ip s).value? = some (-1) ∧
      events (do_client env port ip) s =
        [.inet_pton (parsedText ip) (env.inet_pton (parsedText ip)),
         .warnx "failed to parse IP address: %s\n" [.str (some ip)]]) ∧
    (env.inet_pton (parsedText ip) = 1 → env.sigaction ≠ 0 →
      (do_client env port ip s).value? = some (-1) ∧
      ∃ e, events (do_client env port ip) s =
        [.inet_pton (parsedText ip) 1, .sigaction env.sigaction, .warn "sigaction" e]) ∧
    (env.inet_pton (parsedText ip) = 1 → env.sigaction = 0 → env.getprotobyname = none →
      (do_client env port ip s).value? = some (-1) ∧
      events (do_client env port ip) s =
        [.inet_pton (parsedText ip) 1, .sigaction 0, stamp, connecting port ip,
         .getprotobyname "tcp" false, .warnx "protocol not found: \"tcp\"" []]) ∧
    (∀ proto, env.inet_pton (parsedText ip) = 1 → env.sigaction = 0 →
      env.getprotobyname = some proto →
      (env.socket < 0 →
        (do_client env port ip s).value? = some (-1) ∧
        events (do_client env port ip) s =
          [.inet_pton (parsedText ip) 1, .sigaction 0, stamp, connecting port ip,
           .getprotobyname "tcp" true, .socket proto env.socket,
           .warn "socket" env.socketErrno]) ∧
      (0 ≤ env.socket → env.connect ≠ 0 →
        (do_client env port ip s).value? = some (-1) ∧
        ∃ e, events (do_client env port ip) s =
          [.inet_pton (parsedText ip) 1, .sigaction 0, stamp, connecting port ip,
           .getprotobyname "tcp" true, .socket proto env.socket,
           .connect env.socket (clientAddr env port ip) env.connect,
           .warn "connect" e, .close env.socket]) ∧
      (0 ≤ env.socket → env.connect = 0 →
        (do_client env port ip s).value? = some 0)) := by
  refine ⟨?_, ?_, ?_, ?_, ?_, ?_⟩
  · intro hp
    exact value_events_of_eq _ s (-1) _ _ (do_server_proto_fail env port s hclk hp) rfl
  · intro proto hp
    refine ⟨?_, ?_, ?_, ?_, ?_⟩
    · intro hs
      exact value_events_of_eq _ s (-1) _ _ (do_server_socket_fail env port s hclk proto hp hs) rfl
    · intro hs hb
      exact value_events_of_eq _ s (-1) _ _
        (do_server_bind_fail env port s hclk proto hp hs hb) rfl
    · intro hs hb hl
      exact value_events_of_eq _ s (-1) _ _
        (do_server_listen_fail env port s hclk proto hp hs hb hl) rfl
    · intro hs hb hl ha
      exact value_events_of_eq _ s (-1) _ _
        (do_server_accept_fail env port s hclk proto hp hs hb hl ha) rfl
    · intro hs hb hl ha
      exact (value_events_of_eq _ s 0 _ _
        (do_server_ok env port s hclk proto hp hs hb hl ha) rfl).1
  · intro hp
    exact value_events_of_eq _ s (-1) _ _ (do_client_parse_fail env port ip s hp) rfl
  · intro hp hsig
    have h := value_events_of_eq _ s (-1) _ _
      (do_client_sigaction_fail env port ip s hp hsig) rfl
    exact ⟨h.1, _, by rw [h.2, hp]⟩
  · intro hp hsig hproto
    have h := value_events_of_eq _ s (-1) _ _
      (do_client_proto_fail env port ip s hclk hp hsig hproto) rfl
    exact ⟨h.1, by rw [h.2, hp, hsig]⟩
  · intro proto hp hsig hproto
    refine ⟨?_, ?_, ?_⟩
    · intro hs
      have h := value_events_of_eq _ s (-1) _ _
        (do_client_socket_fail env port ip s hclk proto hp hsig hproto hs) rfl
      exact ⟨h.1, by rw [h.2]; simp [clientSetup, hp, hsig]⟩
    · intro hs hc
      have h := value_events_of_eq _ s (-1) _ _
        (do_client_connect_fail env port ip s hclk proto hp hsig hproto hs hc) rfl
      exact ⟨h.1, if env.connect < 0 then env.connectErrno else s.errno,
        by rw [h.2]; simp [clientSetup, hp, hsig]⟩
    · intro hs hc
      rcases first_failure (FullWrite env) 20 with hall | ⟨k, hk, hbefore, hbad⟩
      · exact (client_run_all_ok env port ip s hclk proto ⟨hp, hsig, hproto, hs, hc⟩ hall).1
      · exact (client_run_stop env port ip s hclk proto ⟨hp, hsig, hproto, hs, hc⟩ k hk
          hbefore hbad).1

theorem clockOk_envBindFail : ClockOk envBindFail := fun _ => by simp [envBindFail, envOk]

theorem clockOk_envConnectFail : ClockOk envConnectFail := fun _ => by
  simp [envConnectFail, envOk]

/-- Witness of C6: `bind` fails in the server, `connect` fails in the
client, and a run of each mode in which every step succeeds. -/
theorem C6_setup_failure_fatal_witness :
    ((do_server envBindFail 20316 st0).value? = some (-1) ∧
      events (do_server envBindFail 20316) st0 =
        [stamp, serverStart, .getprotobyname "tcp" true, .socket 6 3,
         .bind 3 (serverAddr 20316) (-1), .warn "bind" 98, .close 3]) ∧
    ((do_client envConnectFail 20316 "127.0.0.1" st0).value? = some (-1) ∧
      ∃ e, events (do_client envConnectFail 20316 "127.0.0.1") st0 =
        [.inet_pton (parsedText "127.0.0.1") 1, .sigaction 0, stamp,
         connecting 20316 "127.0.0.1", .getprotobyname "tcp" true, .socket 6 3,
         .connect 3 (clientAddr envConnectFail 20316 "127.0.0.1") (-1),
         .warn "connect" e, .close 3]) ∧
    (do_server envOk 20316 st0).value? = some 0 ∧
    (do_client envOk 20316 "127.0.0.1" st0).value? = some 0 :=
  ⟨((C6_setup_failure_fatal envBindFail 20316 "127.0.0.1" st0 clockOk_envBindFail).2.1 6
      rfl).2.1 (by decide) (by decide),
   ((C6_setup_failure_fatal envConnectFail 20316 "127.0.0.1" st0
      clockOk_envConnectFail).2.2.2.2.2 6 (by decide) rfl rfl).2.1 (by decide) (by decide),
   ((C6_setup_failure_fatal envOk 20316 "127.0.0.1" st0 clockOk_envOk).2.1 6
      rfl).2.2.2.2 (by decide) (by decide) (by decide) (by decide),
   ((C6_setup_failure_fatal envOk 20316 "127.0.0.1" st0 clockOk_envOk).2.2.2.2.2 6
      (by decide) rfl rfl).2.2 (by decide) rfl⟩

/-! ## Descriptor hygiene -/

theorem fdRun_append (a b : List Event) :
    ∀ tbl, fdRun tbl (a ++ b) = (fdRun tbl a).bind fun tbl' => fdRun tbl' b := by
  induction a with
  | nil => intro tbl; simp [fdRun]
  | cons e a ih =>
    intro tbl
    simp only [List.cons_append, fdRun]
    cases fdStep tbl e with
    | none => simp
    | some tbl' => simpa using ih tbl'

theorem fdRun_okIters (env : Env) (fd : Int) :
    ∀ n i tbl, fdRun tbl (okIters env fd n i) = some tbl := by
  intro n
  induction n with
  | zero => intro i tbl; simp [okIters, fdRun]
  | succ n ih =>
    intro i tbl
    rw [okIters, fdRun_append]
    simp [okIter, fdRun, fdStep, stamp, writeIndex, ih]

theorem fdRun_failIter (env : Env) (fd : Int) (k : Nat) (e : Int) (tbl : List Int) :
    fdRun tbl (failIter env fd k e) = some tbl := by
  unfold failIter failureLine
  split <;> simp [fdRun, fdStep, stamp, writeIndex]

theorem obtainedFds_okIters (env : Env) (fd : Int) :
    ∀ n i, obtainedFds (okIters env fd n i) = [] := by
  intro n
  induction n with
  | zero => intro i; simp [okIters, obtainedFds]
  | succ n ih =>
    intro i
    have h := ih (i + 1)
    unfold obtainedFds at h ⊢
    rw [okIters, List.filterMap_append, h]
    simp [okIter, stamp, writeIndex]

theorem closedFds_okIters (env : Env) (fd : Int) :
    ∀ n i, closedFds (okIters env fd n i) = [] := by
  intro n
  induction n with
  | zero => intro i; simp [okIters, closedFds]
  | succ n ih =>
    intro i
    have h := ih (i + 1)
    unfold closedFds at h ⊢
    rw [okIters, List.filterMap_append, h]
    simp [okIter, stamp, writeIndex]

theorem obtainedFds_failIter (env : Env) (fd : Int) (k : Nat) (e : Int) :
    obtainedFds (failIter env fd k e) = [] := by
  unfold failIter failureLine
  split <;> simp [obtainedFds, stamp, writeIndex]

theorem closedFds_failIter (env : Env) (fd : Int) (k : Nat) (e : Int) :
    closedFds (failIter env fd k e) = [] := by
  unfold failIter failureLine
  split <;> simp [closedFds, stamp, writeIndex]

/-- Calls that touch no descriptor table entry can be dropped from a trace. -/
theorem hygienic_insert (a m b : List Event) (hrun : ∀ tbl, fdRun tbl m = some tbl)
    (hob : obtainedFds m = []) (hcl : closedFds m = []) (h : Hygienic (a ++ b)) :
    Hygienic (a ++ m ++ b) := by
  obtain ⟨h1, h2, h3⟩ := h
  refine ⟨?_, ?_, ?_⟩
  · rw [fdRun_append] at h1
    rw [fdRun_append, fdRun_append]
    cases ha : fdRun [] a with
    | none => simp [ha] at h1
    | some tbl => simpa [ha, hrun] using h1
  · unfold obtainedFds at h2 hob ⊢
    simpa [List.filterMap_append, hob] using h2
  · intro fd
    have := h3 fd
    unfold obtainedFds at this hob ⊢
    unfold closedFds at this hcl ⊢
    simpa [List.filterMap_append, hob, hcl] using this

theorem hygienic_client_connected (env : Env) (port : Int) (ip : String) (proto : Int)
    (hs : 0 ≤ env.socket) (m : List Event) (hrun : ∀ tbl, fdRun tbl m = some tbl)
    (hob : obtainedFds m = []) (hcl : closedFds m = []) :
    Hygienic (clientSetup env port ip proto ++ clientConnect env port ip ++ m ++
      clientTeardown env.socket) := by
  apply hygienic_insert _ m _ hrun hob hcl
  simp [Hygienic, clientSetup, clientConnect, clientTeardown, fdRun, fdStep, obtainedFds,
    closedFds, stamp, connecting, not_lt.mpr hs, hs]

/-- C7: when `do_server` or `do_client` returns, on the normal path and on
every early error return, whatever calls succeeded or failed, each socket
descriptor it obtained from `socket` or `accept` has been closed exactly
once: every `close` is of a descriptor that is open, and none is left open. -/
theorem C7_descriptor_hygiene (env : Env) (port : Int) (ip : String) (s : State)
    (hclk : ClockOk env)
    (hfresh : 0 ≤ env.socket → 0 ≤ env.accept → env.accept ≠ env.socket) :
    ((∃ code, (do_server env port s).value? = some code) ∧
      Hygienic (events (do_server env port) s)) ∧
    ((∃ code, (do_client env port ip s).value? = some code) ∧
      Hygienic (events (do_client env port ip) s)) := by
  constructor
  · cases hp : env.getprotobyname with
    | none =>
      have h := value_events_of_eq _ s (-1) _ _ (do_server_proto_fail env port s hclk hp) rfl
      refine ⟨⟨_, h.1⟩, ?_⟩
      rw [h.2]
      simp [Hygienic, fdRun, fdStep, obtainedFds, closedFds, stamp, serverStart]
    | some proto =>
      by_cases hs : env.socket < 0
      · have h := value_events_of_eq _ s (-1) _ _
          (do_server_socket_fail env port s hclk proto hp hs) rfl
        refine ⟨⟨_, h.1⟩, ?_⟩
        rw [h.2]
        simp [Hygienic, fdRun, fdStep, obtainedFds, closedFds, stamp, serverStart, hs]
      · have hs0 : 0 ≤ env.socket := not_lt.mp hs
        by_cases hb : env.bind < 0
        · have h := value_events_of_eq _ s (-1) _ _
            (do_server_bind_fail env port s hclk proto hp hs0 hb) rfl
          refine ⟨⟨_, h.1⟩, ?_⟩
          rw [h.2]
          simp [Hygienic, fdRun, fdStep, obtainedFds, closedFds, stamp, serverStart, hs, hs0]
        · have hb0 : 0 ≤ env.bind := not_lt.mp hb
          by_cases hl : env.listen < 0
          · have h := value_events_of_eq _ s (-1) _ _
              (do_server_listen_fail env port s hclk proto hp hs0 hb0 hl) rfl
            refine ⟨⟨_, h.1⟩, ?_⟩
            rw [h.2]
            simp [Hygienic, fdRun, fdStep, obtainedFds, closedFds, stamp, serverStart, hs, hs0]
          · have hl0 : 0 ≤ env.listen := not_lt.mp hl
            by_cases ha : env.accept < 0
            · have h := value_events_of_eq _ s (-1) _ _
                (do_server_accept_fail env port s hclk proto hp hs0 hb0 hl0 ha) rfl
              refine ⟨⟨_, h.1⟩, ?_⟩
              rw [h.2]
              simp [Hygienic, fdRun, fdStep, obtainedFds, closedFds, stamp, serverStart, hs,
                hs0, ha]
            · have ha0 : 0 ≤ env.accept := not_lt.mp ha
              have hne := hfresh hs0 ha0
              have h := value_events_of_eq _ s 0 _ _
                (do_server_ok env port s hclk proto hp hs0 hb0 hl0 ha0) rfl
              refine ⟨⟨_, h.1⟩, ?_⟩
              rw [h.2]
              simp [Hygienic, fdRun, fdStep, obtainedFds, closedFds, stamp, serverStart,
                serverSession, hs, hs0, ha, ha0, hne, Ne.symm hne, List.count_cons]
              intro fd
              omega
  · by_cases hpa : env.inet_pton (parsedText ip) = 1
    swap
    · have h := value_events_of_eq _ s (-1) _ _ (do_client_parse_fail env port ip s hpa) rfl
      refine ⟨⟨_, h.1⟩, ?_⟩
      rw [h.2]
      simp [Hygienic, fdRun, fdStep, obtainedFds, closedFds]
    by_cases hsig : env.sigaction = 0
    swap
    · have h := value_events_of_eq _ s (-1) _ _
        (do_client_sigaction_fail env port ip s hpa hsig) rfl
      refine ⟨⟨_, h.1⟩, ?_⟩
      rw [h.2]
      simp [Hygienic, fdRun, fdStep, obtainedFds, closedFds]
    cases hp : env.getprotobyname with
    | none =>
      have h := value_events_of_eq _ s (-1) _ _
        (do_client_proto_fail env port ip s hclk hpa hsig hp) rfl
      refine ⟨⟨_, h.1⟩, ?_⟩
      rw [h.2]
      simp [Hygienic, fdRun, fdStep, obtainedFds, closedFds, stamp, connecting]
    | some proto =>
      by_cases hs : env.socket < 0
      · have h := value_events_of_eq _ s (-1) _ _
          (do_client_socket_fail env port ip s hclk proto hpa hsig hp hs) rfl
        refine ⟨⟨_, h.1⟩, ?_⟩
        rw [h.2]
        simp [Hygienic, clientSetup, fdRun, fdStep, obtainedFds, closedFds, stamp, connecting,
          hs]
      · have hs0 : 0 ≤ env.socket := not_lt.mp hs
        by_cases hc : env.connect = 0
        swap
        · have h := value_events_of_eq _ s (-1) _ _
            (do_client_connect_fail env port ip s hclk proto hpa hsig hp hs0 hc) rfl
          refine ⟨⟨_, h.1⟩, ?_⟩
          rw [h.2]
          simp [Hygienic, clientSetup, fdRun, fdStep, obtainedFds, closedFds, stamp, connecting,
            hs, hs0]
        have hok : ClientSetupOk env ip proto := ⟨hpa, hsig, hp, hs0, hc⟩
        rcases first_failure (FullWrite env) 20 with hall | ⟨k, hk, hbefore, hbad⟩
        · obtain ⟨hv, he⟩ := client_run_all_ok env port ip s hclk proto hok hall
          refine ⟨⟨_, hv⟩, ?_⟩
          rw [he]
          exact hygienic_client_connected env port ip proto hs0 _
            (fdRun_okIters env env.socket 20 0) (obtainedFds_okIters env env.socket 20 0)
            (closedFds_okIters env env.socket 20 0)
        · obtain ⟨hv, e0, he⟩ := client_run_stop env port ip s hclk proto hok k hk hbefore hbad
          refine ⟨⟨_, hv⟩, ?_⟩
          rw [he, List.append_assoc (clientSetup env port ip proto ++ clientConnect env port ip)]
          refine hygienic_client_connected env port ip proto hs0 _ ?_ ?_ ?_
          · intro tbl
            rw [fdRun_append, fdRun_okIters]
            simpa using fdRun_failIter env env.socket k _ tbl
          · unfold obtainedFds
            rw [List.filterMap_append]
            have h1 := obtainedFds_okIters env env.socket k 0
            have h2 := obtainedFds_failIter env env.socket k (errnoAfterWrite env k e0)
            unfold obtainedFds at h1 h2
            rw [h1, h2]; rfl
          · unfold closedFds
            rw [List.filterMap_append]
            have h1 := closedFds_okIters env env.socket k 0
            have h2 := closedFds_failIter env env.socket k (errnoAfterWrite env k e0)
            unfold closedFds at h1 h2
            rw [h1, h2]; rfl

/-- Witness of C7: a full run of the server (descriptors 3 and 4), a run of
the server in which `bind` fails, and runs of the client in which the 11th
write fails and in which `connect` fails. -/
theorem C7_descriptor_hygiene_witness :
    Hygienic (events (do_server envOk 20316) st0) ∧
    Hygienic (events (do_server envBindFail 20316) st0) ∧
    Hygienic (events (do_client envReset 20316 "127.0.0.1") st0) ∧
    Hygienic (events (do_client envConnectFail 20316 "127.0.0.1") st0) :=
  ⟨(C7_descriptor_hygiene envOk 20316 "127.0.0.1" st0 clockOk_envOk
      (fun _ _ => by decide)).1.2,
   (C7_descriptor_hygiene envBindFail 20316 "127.0.0.1" st0 clockOk_envBindFail
      (fun _ _ => by decide)).1.2,
   (C7_descriptor_hygiene envReset 20316 "127.0.0.1" st0 clockOk_envReset
      (fun _ _ => by decide)).2.2,
   (C7_descriptor_hygiene envConnectFail 20316 "127.0.0.1" st0 clockOk_envConnectFail
      (fun _ _ => by decide)).2.2⟩

/-! ## Address parsing -/

theorem splitDots_length (cs : List Char) :
    ((splitDots cs).map List.length).sum + (splitDots cs).length = cs.length + 1 := by
  induction cs with
  | nil => simp [splitDots]
  | cons c cs ih =>
    by_cases hc : c = '.'
    · simp [splitDots, hc]
      omega
    · cases hsp : splitDots cs with
      | nil => simp [hsp] at ih
      | cons f fs =>
        rw [hsp] at ih
        simp [splitDots, hc, hsp] at ih ⊢
        omega

theorem isOctet_length (f : List Char) (h : isOctet f = true) : f.length ≤ 3 := by
  simp [isOctet] at h
  exact h.1.1.2

/-- A well-formed literal has at most 15 characters. -/
theorem dottedQuad_length (ip : String) (h : isDottedQuad ip = true) : ip.length ≤ 15 := by
  simp only [isDottedQuad, Bool.and_eq_true, decide_eq_true_eq, List.all_eq_true] at h
  obtain ⟨hlen, hall⟩ := h
  have hsum := splitDots_length ip.data
  match hsp : splitDots ip.data, hlen with
  | [a, b, c, d], _ =>
    rw [hsp] at hsum hall
    have ha := isOctet_length a (hall a (by simp))
    have hb := isOctet_length b (hall b (by simp))
    have hc := isOctet_length c (hall c (by simp))
    have hd := isOctet_length d (hall d (by simp))
    have hdata : ip.data.length = ip.length := rfl
    simp only [List.map_cons, List.map_nil, List.sum_cons, List.sum_nil, List.length_cons,
      List.length_nil] at hsum
    omega

/-- An argument of at most 15 characters reaches `inet_pton` unchanged. -/
theorem parsedText_short (ip : String) (h : ip.length ≤ 15) : parsedText ip = ip := by
  have h1 : ip.data.length ≤ 15 := h
  simp [parsedText, strlcpy, INET_ADDRSTRLEN, List.take_of_length_le h1]

/-- C8, at the argument "111.111.111.111junk": the argument is not a
well-formed dotted-quad literal, yet `parse_ipv4` hands `inet_pton` only its
first 15 characters, "111.111.111.111", and returns 0; `do_client` goes on
to create a socket and connect, and returns 0.  On every well-formed literal
`parse_ipv4` returns 0, and on every other argument of at most 15
characters, such as "not-an-ip" and "999.1.1.1", `do_client` returns -1
after the parse, with no further call. -/
theorem C8_parse_ipv4_truncates (env : Env) (port : Int) (s : State) (proto : Int)
    (hpton : ∀ t, env.inet_pton t = 1 ↔ isDottedQuad t = true)
    (hclk : ClockOk env) (hsig : env.sigaction = 0)
    (hproto : env.getprotobyname = some proto) (hs : 0 ≤ env.socket)
    (hc : env.connect = 0) :
    isDottedQuad "111.111.111.111junk" = false ∧
    parsedText "111.111.111.111junk" = "111.111.111.111" ∧
    (parse_ipv4 env "111.111.111.111junk" s).value? =
      some (0, { sin_family := .AF_INET, s_addr := env.inet_addr "111.111.111.111",
                 sin_port := 0 }) ∧
    (do_client env port "111.111.111.111junk" s).value? = some 0 ∧
    (∃ t, events (do_client env port "111.111.111.111junk") s =
      [.inet_pton "111.111.111.111" 1, .sigaction 0, stamp,
       connecting port "111.111.111.111junk", .getprotobyname "tcp" true,
       .socket proto env.socket,
       .connect env.socket
         ⟨.AF_INET, env.inet_addr "111.111.111.111", htons port⟩ 0] ++ t) ∧
    (∀ ip, isDottedQuad ip = true →
      (parse_ipv4 env ip s).value? =
        some (0, { sin_family := .AF_INET, s_addr := env.inet_addr ip, sin_port := 0 })) ∧
    (∀ ip, ip.length ≤ 15 → isDottedQuad ip = false →
      (do_client env port ip s).value? = some (-1) ∧
      events (do_client env port ip) s =
        [.inet_pton ip (env.inet_pton ip),
         .warnx "failed to parse IP address: %s\n" [.str (some ip)]]) ∧
    ((do_client env port "not-an-ip" s).value? = some (-1) ∧
      events (do_client env port "not-an-ip") s =
        [.inet_pton "not-an-ip" (env.inet_pton "not-an-ip"),
         .warnx "failed to parse IP address: %s\n" [.str (some "not-an-ip")]]) ∧
    ((do_client env port "999.1.1.1" s).value? = some (-1) ∧
      events (do_client env port "999.1.1.1") s =
        [.inet_pton "999.1.1.1" (env.inet_pton "999.1.1.1"),
         .warnx "failed to parse IP address: %s\n" [.str (some "999.1.1.1")]]) := by
  have htxt : parsedText "111.111.111.111junk" = "111.111.111.111" := by decide
  have hgood : env.inet_pton "111.111.111.111" = 1 := (hpton _).mpr (by decide)
  have hok : ClientSetupOk env "111.111.111.111junk" proto :=
    ⟨by rw [htxt]; exact hgood, hsig, hproto, hs, hc⟩
  have hrun : (do_client env port "111.111.111.111junk" s).value? = some 0 ∧
      ∃ t, events (do_client env port "111.111.111.111junk") s =
        clientSetup env port "111.111.111.111junk" proto ++
          clientConnect env port "111.111.111.111junk" ++ t := by
    rcases first_failure (FullWrite env) 20 with hall | ⟨k, hk, hbefore, hbad⟩
    · obtain ⟨hv, he⟩ := client_run_all_ok env port _ s hclk proto hok hall
      exact ⟨hv, _, by rw [he, List.append_assoc]⟩
    · obtain ⟨hv, e0, he⟩ := client_run_stop env port _ s hclk proto hok k hk hbefore hbad
      exact ⟨hv, _, by rw [he, List.append_assoc, List.append_assoc]⟩
  refine ⟨by decide, htxt, ?_, hrun.1, ?_, ?_, ?_, ?_, ?_⟩
  · have h16 : strlcpy "111.111.111.111junk" INET_ADDRSTRLEN = "111.111.111.111" := htxt
    simp [parse_ipv4, bind_apply, emit, pure, h16, hgood, Outcome.value?]
  · obtain ⟨t, ht⟩ := hrun.2
    refine ⟨[stamp, .printf "connected\n" []] ++ t, ?_⟩
    rw [ht]
    simp [clientSetup, clientConnect, clientAddr, htxt, hgood, hsig, hc]
  · intro ip hwf
    have h16 : strlcpy ip INET_ADDRSTRLEN = ip :=
      parsedText_short ip (dottedQuad_length ip hwf)
    simp [parse_ipv4, bind_apply, emit, pure, h16, (hpton ip).mpr hwf, Outcome.value?]
  · intro ip hlen hwf
    have h16 : parsedText ip = ip := parsedText_short ip hlen
    have hbad : env.inet_pton (parsedText ip) ≠ 1 := by
      rw [h16]
      intro h
      rw [(hpton ip).mp h] at hwf
      exact absurd hwf (by decide)
    have h := value_events_of_eq _ s (-1) _ _ (do_client_parse_fail env port ip s hbad) rfl
    rw [h16] at h
    exact h
  · have hbad : env.inet_pton (parsedText "not-an-ip") ≠ 1 := by
      intro h
      exact absurd ((hpton _).mp h) (by decide)
    exact value_events_of_eq _ s (-1) _ _ (do_client_parse_fail env port _ s hbad) rfl
  · have hbad : env.inet_pton (parsedText "999.1.1.1") ≠ 1 := by
      intro h
      exact absurd ((hpton _).mp h) (by decide)
    exact value_events_of_eq _ s (-1) _ _ (do_client_parse_fail env port _ s hbad) rfl

/-- Witness of C8: `inet_pton` accepts exactly the well-formed literals. -/
theorem C8_parse_ipv4_truncates_witness :
    isDottedQuad "111.111.111.111junk" = false ∧
    (parse_ipv4 envOk "111.111.111.111junk" st0).value? =
      some (0, { sin_family := .AF_INET, s_addr := 2130706433, sin_port := 0 }) ∧
    (do_client envOk 20316 "111.111.111.111junk" st0).value? = some 0 :=
  have h := C8_parse_ipv4_truncates envOk 20316 st0 6
    (fun t => by cases ht : isDottedQuad t <;> simp [envOk, ht])
    clockOk_envOk rfl rfl (by decide) rfl
  ⟨h.1, h.2.2.1, h.2.2.2.1⟩

end TcpCloseTest
